import Mathlib

/-!
Verification development for the Metal backend of the plume graphics
abstraction layer (src/plume_metal.cpp, src/plume_metal.h).

The definitions below are a shallow embedding of the relevant portions of
the source: the format mapping tables, the descriptor set layout
construction, the descriptor set binding protocol, the command list
encoder state machine with deferred clears and dirty-state tracking, and
the swap chain acquire/resize protocol.  Native GPU handles (MTL::Texture,
MTL::Buffer, MTL::SamplerState, CA::MetalDrawable, semaphores) are carried
as opaque Nat tokens: the code under scrutiny never inspects them, it only
stores, compares and forwards them.  Floating point clear values are
likewise carried as opaque tokens (the code stores and forwards them
verbatim, no arithmetic is performed on them).
-/

/-! ## Format and enum mapping (plume_metal.cpp, mapPixelFormat / mapRenderFormat)

RenderFormat is the abstract render-format enumeration of the layer; the
constructors listed here are exactly the formats handled by the
mapPixelFormat switch in the source, i.e. the supported list (the switch
asserts on anything else). -/

inductive RenderFormat where
  | UNKNOWN
  | R32G32B32A32_TYPELESS
  | R32G32B32A32_FLOAT
  | R32G32B32A32_UINT
  | R32G32B32A32_SINT
  | R32G32B32_TYPELESS
  | R32G32B32_FLOAT
  | R32G32B32_UINT
  | R32G32B32_SINT
  | R16G16B16A16_TYPELESS
  | R16G16B16A16_FLOAT
  | R16G16B16A16_UNORM
  | R16G16B16A16_UINT
  | R16G16B16A16_SNORM
  | R16G16B16A16_SINT
  | R32G32_TYPELESS
  | R32G32_FLOAT
  | R32G32_UINT
  | R32G32_SINT
  | R8G8B8A8_TYPELESS
  | R8G8B8A8_UNORM
  | R8G8B8A8_UINT
  | R8G8B8A8_SNORM
  | R8G8B8A8_SINT
  | B8G8R8A8_UNORM
  | R16G16_TYPELESS
  | R16G16_FLOAT
  | R16G16_UNORM
  | R16G16_UINT
  | R16G16_SNORM
  | R16G16_SINT
  | R32_TYPELESS
  | D32_FLOAT
  | D32_FLOAT_S8_UINT
  | R32_FLOAT
  | R32_UINT
  | R32_SINT
  | R8G8_TYPELESS
  | R8G8_UNORM
  | R8G8_UINT
  | R8G8_SNORM
  | R8G8_SINT
  | R16_TYPELESS
  | R16_FLOAT
  | D16_UNORM
  | R16_UNORM
  | R16_UINT
  | R16_SNORM
  | R16_SINT
  | R8_TYPELESS
  | R8_UNORM
  | R8_UINT
  | R8_SNORM
  | R8_SINT
  | BC1_TYPELESS
  | BC1_UNORM
  | BC1_UNORM_SRGB
  | BC2_TYPELESS
  | BC2_UNORM
  | BC2_UNORM_SRGB
  | BC3_TYPELESS
  | BC3_UNORM
  | BC3_UNORM_SRGB
  | BC4_TYPELESS
  | BC4_UNORM
  | BC4_SNORM
  | BC5_TYPELESS
  | BC5_UNORM
  | BC5_SNORM
  | BC6H_TYPELESS
  | BC6H_UF16
  | BC6H_SF16
  | BC7_TYPELESS
  | BC7_UNORM
  | BC7_UNORM_SRGB
  deriving DecidableEq, Repr, Inhabited

/-- Native pixel formats (MTL::PixelFormat values appearing in the source). -/
inductive MTLPixelFormat where
  | Invalid
  | RGBA32Float
  | RGBA32Uint
  | RGBA32Sint
  | RGBA16Float
  | RGBA16Unorm
  | RGBA16Uint
  | RGBA16Snorm
  | RGBA16Sint
  | RG32Float
  | RG32Uint
  | RG32Sint
  | RGBA8Unorm
  | RGBA8Uint
  | RGBA8Snorm
  | RGBA8Sint
  | BGRA8Unorm
  | RG16Float
  | RG16Unorm
  | RG16Uint
  | RG16Snorm
  | RG16Sint
  | Depth32Float
  | Depth32Float_Stencil8
  | R32Float
  | R32Uint
  | R32Sint
  | RG8Unorm
  | RG8Uint
  | RG8Snorm
  | RG8Sint
  | R16Float
  | Depth16Unorm
  | R16Unorm
  | R16Uint
  | R16Snorm
  | R16Sint
  | R8Unorm
  | R8Uint
  | R8Snorm
  | R8Sint
  | BC1_RGBA
  | BC1_RGBA_sRGB
  | BC2_RGBA
  | BC2_RGBA_sRGB
  | BC3_RGBA
  | BC3_RGBA_sRGB
  | BC4_RUnorm
  | BC4_RSnorm
  | BC5_RGUnorm
  | BC5_RGSnorm
  | BC6H_RGBFloat
  | BC6H_RGBUfloat
  | BC7_RGBAUnorm
  | BC7_RGBAUnorm_sRGB
  deriving DecidableEq, Repr, Inhabited

/-- Embedding of mapPixelFormat (plume_metal.cpp lines 289-446): abstract
render format to native pixel format. -/
def mapPixelFormat : RenderFormat → MTLPixelFormat
  | .UNKNOWN => .Invalid
  | .R32G32B32A32_TYPELESS => .RGBA32Float
  | .R32G32B32A32_FLOAT => .RGBA32Float
  | .R32G32B32A32_UINT => .RGBA32Uint
  | .R32G32B32A32_SINT => .RGBA32Sint
  | .R32G32B32_TYPELESS => .RGBA32Float
  | .R32G32B32_FLOAT => .RGBA32Float
  | .R32G32B32_UINT => .RGBA32Uint
  | .R32G32B32_SINT => .RGBA32Sint
  | .R16G16B16A16_TYPELESS => .RGBA16Float
  | .R16G16B16A16_FLOAT => .RGBA16Float
  | .R16G16B16A16_UNORM => .RGBA16Unorm
  | .R16G16B16A16_UINT => .RGBA16Uint
  | .R16G16B16A16_SNORM => .RGBA16Snorm
  | .R16G16B16A16_SINT => .RGBA16Sint
  | .R32G32_TYPELESS => .RG32Float
  | .R32G32_FLOAT => .RG32Float
  | .R32G32_UINT => .RG32Uint
  | .R32G32_SINT => .RG32Sint
  | .R8G8B8A8_TYPELESS => .RGBA8Unorm
  | .R8G8B8A8_UNORM => .RGBA8Unorm
  | .R8G8B8A8_UINT => .RGBA8Uint
  | .R8G8B8A8_SNORM => .RGBA8Snorm
  | .R8G8B8A8_SINT => .RGBA8Sint
  | .B8G8R8A8_UNORM => .BGRA8Unorm
  | .R16G16_TYPELESS => .RG16Float
  | .R16G16_FLOAT => .RG16Float
  | .R16G16_UNORM => .RG16Unorm
  | .R16G16_UINT => .RG16Uint
  | .R16G16_SNORM => .RG16Snorm
  | .R16G16_SINT => .RG16Sint
  | .R32_TYPELESS => .R32Float
  | .D32_FLOAT => .Depth32Float
  | .D32_FLOAT_S8_UINT => .Depth32Float_Stencil8
  | .R32_FLOAT => .R32Float
  | .R32_UINT => .R32Uint
  | .R32_SINT => .R32Sint
  | .R8G8_TYPELESS => .RG8Unorm
  | .R8G8_UNORM => .RG8Unorm
  | .R8G8_UINT => .RG8Uint
  | .R8G8_SNORM => .RG8Snorm
  | .R8G8_SINT => .RG8Sint
  | .R16_TYPELESS => .R16Float
  | .R16_FLOAT => .R16Float
  | .D16_UNORM => .Depth16Unorm
  | .R16_UNORM => .R16Unorm
  | .R16_UINT => .R16Uint
  | .R16_SNORM => .R16Snorm
  | .R16_SINT => .R16Sint
  | .R8_TYPELESS => .R8Unorm
  | .R8_UNORM => .R8Unorm
  | .R8_UINT => .R8Uint
  | .R8_SNORM => .R8Snorm
  | .R8_SINT => .R8Sint
  | .BC1_TYPELESS => .BC1_RGBA
  | .BC1_UNORM => .BC1_RGBA
  | .BC1_UNORM_SRGB => .BC1_RGBA_sRGB
  | .BC2_TYPELESS => .BC2_RGBA
  | .BC2_UNORM => .BC2_RGBA
  | .BC2_UNORM_SRGB => .BC2_RGBA_sRGB
  | .BC3_TYPELESS => .BC3_RGBA
  | .BC3_UNORM => .BC3_RGBA
  | .BC3_UNORM_SRGB => .BC3_RGBA_sRGB
  | .BC4_TYPELESS => .BC4_RUnorm
  | .BC4_UNORM => .BC4_RUnorm
  | .BC4_SNORM => .BC4_RSnorm
  | .BC5_TYPELESS => .BC5_RGUnorm
  | .BC5_UNORM => .BC5_RGUnorm
  | .BC5_SNORM => .BC5_RGSnorm
  | .BC6H_TYPELESS => .BC6H_RGBFloat
  | .BC6H_UF16 => .BC6H_RGBUfloat
  | .BC6H_SF16 => .BC6H_RGBFloat
  | .BC7_TYPELESS => .BC7_RGBAUnorm
  | .BC7_UNORM => .BC7_RGBAUnorm
  | .BC7_UNORM_SRGB => .BC7_RGBAUnorm_sRGB

/-- Embedding of mapRenderFormat (plume_metal.cpp lines 170-287): native
pixel format back to the abstract render format. -/
def mapRenderFormat : MTLPixelFormat → RenderFormat
  | .Invalid => .UNKNOWN
  | .RGBA32Float => .R32G32B32A32_FLOAT
  | .RGBA32Uint => .R32G32B32A32_UINT
  | .RGBA32Sint => .R32G32B32A32_SINT
  | .RGBA16Float => .R16G16B16A16_FLOAT
  | .RGBA16Unorm => .R16G16B16A16_UNORM
  | .RGBA16Uint => .R16G16B16A16_UINT
  | .RGBA16Snorm => .R16G16B16A16_SNORM
  | .RGBA16Sint => .R16G16B16A16_SINT
  | .RG32Float => .R32G32_FLOAT
  | .RG32Uint => .R32G32_UINT
  | .RG32Sint => .R32G32_SINT
  | .RGBA8Unorm => .R8G8B8A8_UNORM
  | .RGBA8Uint => .R8G8B8A8_UINT
  | .RGBA8Snorm => .R8G8B8A8_SNORM
  | .RGBA8Sint => .R8G8B8A8_SINT
  | .BGRA8Unorm => .B8G8R8A8_UNORM
  | .RG16Float => .R16G16_FLOAT
  | .RG16Unorm => .R16G16_UNORM
  | .RG16Uint => .R16G16_UINT
  | .RG16Snorm => .R16G16_SNORM
  | .RG16Sint => .R16G16_SINT
  | .Depth32Float => .D32_FLOAT
  | .Depth32Float_Stencil8 => .D32_FLOAT_S8_UINT
  | .R32Float => .R32_FLOAT
  | .R32Uint => .R32_UINT
  | .R32Sint => .R32_SINT
  | .RG8Unorm => .R8G8_UNORM
  | .RG8Uint => .R8G8_UINT
  | .RG8Snorm => .R8G8_SNORM
  | .RG8Sint => .R8G8_SINT
  | .R16Float => .R16_FLOAT
  | .Depth16Unorm => .D16_UNORM
  | .R16Unorm => .R16_UNORM
  | .R16Uint => .R16_UINT
  | .R16Snorm => .R16_SNORM
  | .R16Sint => .R16_SINT
  | .R8Unorm => .R8_UNORM
  | .R8Uint => .R8_UINT
  | .R8Snorm => .R8_SNORM
  | .R8Sint => .R8_SINT
  | .BC1_RGBA => .BC1_UNORM
  | .BC1_RGBA_sRGB => .BC1_UNORM_SRGB
  | .BC2_RGBA => .BC2_UNORM
  | .BC2_RGBA_sRGB => .BC2_UNORM_SRGB
  | .BC3_RGBA => .BC3_UNORM
  | .BC3_RGBA_sRGB => .BC3_UNORM_SRGB
  | .BC4_RUnorm => .BC4_UNORM
  | .BC4_RSnorm => .BC4_SNORM
  | .BC5_RGUnorm => .BC5_UNORM
  | .BC5_RGSnorm => .BC5_SNORM
  | .BC6H_RGBFloat => .BC6H_SF16
  | .BC6H_RGBUfloat => .BC6H_UF16
  | .BC7_RGBAUnorm => .BC7_UNORM
  | .BC7_RGBAUnorm_sRGB => .BC7_UNORM_SRGB

/-- The supported abstract formats: exactly the cases of the mapPixelFormat
switch in the source. -/
def supportedRenderFormats : List RenderFormat :=
  [.UNKNOWN,
   .R32G32B32A32_TYPELESS, .R32G32B32A32_FLOAT, .R32G32B32A32_UINT, .R32G32B32A32_SINT,
   .R32G32B32_TYPELESS, .R32G32B32_FLOAT, .R32G32B32_UINT, .R32G32B32_SINT,
   .R16G16B16A16_TYPELESS, .R16G16B16A16_FLOAT, .R16G16B16A16_UNORM, .R16G16B16A16_UINT,
   .R16G16B16A16_SNORM, .R16G16B16A16_SINT,
   .R32G32_TYPELESS, .R32G32_FLOAT, .R32G32_UINT, .R32G32_SINT,
   .R8G8B8A8_TYPELESS, .R8G8B8A8_UNORM, .R8G8B8A8_UINT, .R8G8B8A8_SNORM, .R8G8B8A8_SINT,
   .B8G8R8A8_UNORM,
   .R16G16_TYPELESS, .R16G16_FLOAT, .R16G16_UNORM, .R16G16_UINT, .R16G16_SNORM, .R16G16_SINT,
   .R32_TYPELESS, .D32_FLOAT, .D32_FLOAT_S8_UINT, .R32_FLOAT, .R32_UINT, .R32_SINT,
   .R8G8_TYPELESS, .R8G8_UNORM, .R8G8_UINT, .R8G8_SNORM, .R8G8_SINT,
   .R16_TYPELESS, .R16_FLOAT, .D16_UNORM, .R16_UNORM, .R16_UINT, .R16_SNORM, .R16_SINT,
   .R8_TYPELESS, .R8_UNORM, .R8_UINT, .R8_SNORM, .R8_SINT,
   .BC1_TYPELESS, .BC1_UNORM, .BC1_UNORM_SRGB,
   .BC2_TYPELESS, .BC2_UNORM, .BC2_UNORM_SRGB,
   .BC3_TYPELESS, .BC3_UNORM, .BC3_UNORM_SRGB,
   .BC4_TYPELESS, .BC4_UNORM, .BC4_SNORM,
   .BC5_TYPELESS, .BC5_UNORM, .BC5_SNORM,
   .BC6H_TYPELESS, .BC6H_UF16, .BC6H_SF16,
   .BC7_TYPELESS, .BC7_UNORM, .BC7_UNORM_SRGB]

/-- TYPELESS variants of the abstract format vocabulary. -/
def isTypelessFormat : RenderFormat → Bool
  | .R32G32B32A32_TYPELESS | .R32G32B32_TYPELESS | .R16G16B16A16_TYPELESS
  | .R32G32_TYPELESS | .R8G8B8A8_TYPELESS | .R16G16_TYPELESS | .R32_TYPELESS
  | .R8G8_TYPELESS | .R16_TYPELESS | .R8_TYPELESS | .BC1_TYPELESS | .BC2_TYPELESS
  | .BC3_TYPELESS | .BC4_TYPELESS | .BC5_TYPELESS | .BC6H_TYPELESS | .BC7_TYPELESS => true
  | _ => false

/-- The three-component 32-bit formats: Metal has no native RGB32 pixel
formats, so the source maps them to the four-component RGBA32 formats. -/
def isThreeComponent32Format : RenderFormat → Bool
  | .R32G32B32_FLOAT | .R32G32B32_UINT | .R32G32B32_SINT => true
  | _ => false

/-! ## Descriptor set layout (MetalDescriptorSetLayout constructor,
plume_metal.cpp lines 953-1079)

The constructor sorts a copy of the descriptor ranges by ascending binding
number, then emits one native argument descriptor per occupied binding,
inserting a zero-length placeholder (data type Pointer, array length 0) for
every skipped binding number, and finally one descriptor of capacity
device->capabilities.maxTextureSize for a boundless last range. -/

/-- Descriptor range types (RenderDescriptorRangeType values used by the
source; UNKNOWN is the ResourceEntry default). -/
inductive RenderDescriptorRangeType where
  | UNKNOWN
  | TEXTURE
  | READ_WRITE_TEXTURE
  | FORMATTED_BUFFER
  | READ_WRITE_FORMATTED_BUFFER
  | STRUCTURED_BUFFER
  | READ_WRITE_STRUCTURED_BUFFER
  | BYTE_ADDRESS_BUFFER
  | READ_WRITE_BYTE_ADDRESS_BUFFER
  | CONSTANT_BUFFER
  | SAMPLER
  | ACCELERATION_STRUCTURE
  deriving DecidableEq, Repr, Inhabited

/-- Native argument data types (MTL::DataType values used by the source). -/
inductive MTLDataType where
  | None
  | Texture
  | Pointer
  | Sampler
  | PrimitiveAccelerationStructure
  deriving DecidableEq, Repr, Inhabited

/-- Embedding of mapDataType (plume_metal.cpp lines 143-168).  The default
branch asserts and returns DataTypeNone; it is reached for UNKNOWN. -/
def mapDataType : RenderDescriptorRangeType → MTLDataType
  | .TEXTURE | .READ_WRITE_TEXTURE | .FORMATTED_BUFFER | .READ_WRITE_FORMATTED_BUFFER =>
      .Texture
  | .ACCELERATION_STRUCTURE => .PrimitiveAccelerationStructure
  | .STRUCTURED_BUFFER | .BYTE_ADDRESS_BUFFER | .READ_WRITE_STRUCTURED_BUFFER
  | .READ_WRITE_BYTE_ADDRESS_BUFFER | .CONSTANT_BUFFER => .Pointer
  | .SAMPLER => .Sampler
  | .UNKNOWN => .None

/-- Native argument-descriptor texture types set by the constructor. -/
inductive MTLTextureType where
  | Texture2D
  | TextureBuffer
  deriving DecidableEq, Repr, Inhabited

/-- A descriptor range of the abstract binding model: binding number,
descriptor count and resource type.  (The optional immutable-sampler handle
array of the source only feeds native sampler handles into setBindings and
does not influence any property below, so it is not carried.) -/
structure RenderDescriptorRange where
  binding : Nat
  count : Nat
  rangeType : RenderDescriptorRangeType
  deriving DecidableEq, Repr, Inhabited

/-- Descriptor set description: the ordered ranges, whether the last range
is boundless, and the requested boundless capacity. -/
structure RenderDescriptorSetDesc where
  descriptorRanges : List RenderDescriptorRange
  lastRangeIsBoundless : Bool
  boundlessRangeSize : Nat
  deriving DecidableEq, Repr, Inhabited

/-- One native argument descriptor: data type, slot index, array length and
the explicitly-set texture type (none when the constructor leaves the
native default untouched). -/
structure ArgumentDescriptor where
  dataType : MTLDataType
  index : Nat
  arrayLength : Nat
  textureType : Option MTLTextureType
  deriving DecidableEq, Repr, Inhabited

/-- Texture type assignment of the constructor: TEXTURE ranges become 2D
textures, formatted-buffer ranges become texture buffers. -/
def argumentTextureType : RenderDescriptorRangeType → Option MTLTextureType
  | .TEXTURE => some .Texture2D
  | .READ_WRITE_FORMATTED_BUFFER | .FORMATTED_BUFFER => some .TextureBuffer
  | _ => none

/-- A zero-length placeholder argument descriptor for a skipped binding
number (data type Pointer, array length 0). -/
def placeholderDescriptor (i : Nat) : ArgumentDescriptor :=
  { dataType := .Pointer, index := i, arrayLength := 0, textureType := none }

/-- The real argument descriptor emitted for a non-boundless range. -/
def realDescriptor (r : RenderDescriptorRange) : ArgumentDescriptor :=
  { dataType := mapDataType r.rangeType
    index := r.binding
    arrayLength := if r.count > 1 then r.count else 0
    textureType := argumentTextureType r.rangeType }

/-- The single argument descriptor emitted for a boundless range: its array
length is the device capability maxTextureSize, regardless of the requested
boundlessRangeSize. -/
def boundlessDescriptor (maxTextureSize : Nat) (r : RenderDescriptorRange) :
    ArgumentDescriptor :=
  { dataType := mapDataType r.rangeType
    index := r.binding
    arrayLength := maxTextureSize
    textureType := argumentTextureType r.rangeType }

/-- Sorting a copy of the ranges by ascending binding number
(std::sort with the comparator a.binding < b.binding). -/
def sortRanges (ranges : List RenderDescriptorRange) : List RenderDescriptorRange :=
  List.insertionSort (fun a b => a.binding ≤ b.binding) ranges

/-- The second pass of the constructor over the sorted non-boundless
ranges: while curBinding is below the next occupied binding, emit
placeholders; then emit the real entry and continue past that binding. -/
def emitArgumentDescriptors :
    List RenderDescriptorRange → Nat → List ArgumentDescriptor
  | [], _ => []
  | r :: rest, curBinding =>
      (List.range' curBinding (r.binding - curBinding)).map placeholderDescriptor
        ++ realDescriptor r :: emitArgumentDescriptors rest (max curBinding r.binding + 1)

/-- The argument-descriptor list built by the MetalDescriptorSetLayout
constructor: sorted ranges, gap padding, then the boundless entry (taken
from sortedRanges[descriptorRangesCount - 1]) when the last range is
boundless.  maxTextureSize is the device capability used as the boundless
capacity. -/
def layoutArgumentDescriptors (maxTextureSize : Nat)
    (desc : RenderDescriptorSetDesc) : List ArgumentDescriptor :=
  let sorted := sortRanges desc.descriptorRanges
  let n := desc.descriptorRanges.length
  let rangeCount := if desc.lastRangeIsBoundless then n - 1 else n
  let nonBoundlessPart := emitArgumentDescriptors (sorted.take rangeCount) 0
  match desc.lastRangeIsBoundless, sorted[n - 1]? with
  | true, some lastRange => nonBoundlessPart ++ [boundlessDescriptor maxTextureSize lastRange]
  | _, _ => nonBoundlessPart

/-! ## Descriptor set (MetalDescriptorSet, plume_metal.cpp lines 1585-1771)

The set owns a CPU-side resource table with one entry per flat descriptor
index (resourceEntries.resize(setLayout->descriptorBindingIndices.size())),
updated in place by setDescriptor.  Native resource handles are opaque Nat
tokens. -/

/-- The first constructor pass of MetalDescriptorSetLayout: expand every
range into count flat entries, each recording the owning range base offset
(first component) and binding number (second component). -/
def flatEntriesFrom (base : Nat) : List RenderDescriptorRange → List (Nat × Nat)
  | [] => []
  | r :: rest => List.replicate r.count (base, r.binding) ++ flatEntriesFrom (base + r.count) rest

/-- descriptorIndexBases of the layout. -/
def descriptorIndexBases (ranges : List RenderDescriptorRange) : List Nat :=
  (flatEntriesFrom 0 ranges).map Prod.fst

/-- descriptorBindingIndices of the layout. -/
def descriptorBindingIndices (ranges : List RenderDescriptorRange) : List Nat :=
  (flatEntriesFrom 0 ranges).map Prod.snd

/-- One resolved binding of the layout (immutable sampler handles omitted,
as above). -/
structure DescriptorSetLayoutBinding where
  binding : Nat
  descriptorCount : Nat
  descriptorType : RenderDescriptorRangeType
  deriving DecidableEq, Repr, Inhabited

/-- setBindings of the layout: one resolved binding per processed range, in
sorted order, the boundless range (sortedRanges[n-1]) last when present. -/
def layoutSetBindings (desc : RenderDescriptorSetDesc) : List DescriptorSetLayoutBinding :=
  let sorted := sortRanges desc.descriptorRanges
  let n := desc.descriptorRanges.length
  let rangeCount := if desc.lastRangeIsBoundless then n - 1 else n
  let processed :=
    match desc.lastRangeIsBoundless, sorted[n - 1]? with
    | true, some lastRange => sorted.take rangeCount ++ [lastRange]
    | _, _ => sorted.take rangeCount
  processed.map (fun r =>
    { binding := r.binding, descriptorCount := r.count, descriptorType := r.rangeType })

/-- bindingToIndex of the layout: the index into setBindings assigned to a
binding number (the constructor writes setBindings.size() at insertion
time, so a duplicate binding keeps the last write). -/
def bindingToIndex (desc : RenderDescriptorSetDesc) (b : Nat) : Option Nat :=
  (layoutSetBindings desc).findIdx? (fun sb => sb.binding == b) |>.bind
    (fun _ => ((layoutSetBindings desc).length - 1 -
      ((layoutSetBindings desc).reverse.findIdx? (fun sb => sb.binding == b)).getD 0 : Nat))

/-- MetalDescriptorSetLayout::getBinding with bindingIndexOffset 0: returns
the resolved binding for a binding number, or none when the number was
never assigned (bindingToIndex still holds -1). -/
def getBinding (desc : RenderDescriptorSetDesc) (b : Nat) :
    Option DescriptorSetLayoutBinding :=
  (bindingToIndex desc b).bind (fun i => (layoutSetBindings desc)[i]?)

/-- MetalDescriptorSet::getDescriptorType: the range type of a binding
number (none models the undefined nullptr dereference of the source when
the binding number is unassigned). -/
def getDescriptorType (desc : RenderDescriptorSetDesc) (b : Nat) :
    Option RenderDescriptorRangeType :=
  (getBinding desc b).map (fun sb => sb.descriptorType)

/-- A CPU-side resource entry: the retained native resource handle (none
for null / sampler slots) and the recorded range type (none models the
initial UNKNOWN default). -/
structure ResourceEntry where
  resource : Option Nat
  rtype : Option RenderDescriptorRangeType
  deriving DecidableEq, Repr, Inhabited

/-- Mutable state of a MetalDescriptorSet. -/
structure DescriptorSetState where
  resourceEntries : List ResourceEntry
  toReleaseOnDestruction : List Nat
  deriving DecidableEq, Repr, Inhabited

/-- The freshly constructed descriptor set: resourceEntries is resized to
descriptorBindingIndices.size() default entries. -/
def initDescriptorSet (desc : RenderDescriptorSetDesc) : DescriptorSetState :=
  { resourceEntries :=
      List.replicate (descriptorBindingIndices desc.descriptorRanges).length
        { resource := none, rtype := none }
    toReleaseOnDestruction := [] }

/-- A typed descriptor passed to setDescriptor (argument-buffer payloads). -/
inductive Descriptor where
  | texture (handle : Nat)
  | buffer (handle : Nat) (offset : Nat)
  | sampler (handle : Nat)
  deriving DecidableEq, Repr, Inhabited

/-- MetalDescriptorSet::setDescriptor (plume_metal.cpp lines 1716-1767):
resolves the flat index to (indexBase, bindingNumber), defers release of a
previously retained non-sampler resource, stores the new native resource
(none when the descriptor is null or the slot is a sampler slot, since
sampler state is not an MTL::Resource) and the recorded range type.
The source indexes setBindings with indexBase to obtain the data type. -/
def setDescriptor (desc : RenderDescriptorSetDesc) (st : DescriptorSetState)
    (descriptorIndex : Nat) (d : Option Descriptor) : DescriptorSetState :=
  let bases := descriptorIndexBases desc.descriptorRanges
  let binds := descriptorBindingIndices desc.descriptorRanges
  let indexBase := bases.getD descriptorIndex 0
  let bindingIndex := binds.getD descriptorIndex 0
  let dtype := ((layoutSetBindings desc)[indexBase]?).map
    (fun sb => mapDataType sb.descriptorType)
  let old := st.resourceEntries.getD descriptorIndex { resource := none, rtype := none }
  let toRelease :=
    if dtype ≠ some .Sampler then
      match old.resource with
      | some h => st.toReleaseOnDestruction ++ [h]
      | none => st.toReleaseOnDestruction
    else st.toReleaseOnDestruction
  let nativeResource : Option Nat :=
    match d, dtype with
    | some (.texture h), some .Texture => some h
    | some (.buffer h _), some .Pointer => some h
    | _, _ => none
  { resourceEntries :=
      st.resourceEntries.set descriptorIndex
        { resource := nativeResource, rtype := getDescriptorType desc bindingIndex }
    toReleaseOnDestruction := toRelease }

/-- One public binding call on a descriptor set (null resources allowed).
A buffer structured view is (firstElement, structureByteStride); a buffer
formatted view carries the texture handle backing the view. -/
inductive SetCall where
  | setBuffer (buffer : Option Nat) (structuredView : Option (Nat × Nat))
      (formattedView : Option Nat)
  | setTexture (texture : Option Nat) (textureView : Option Nat)
  | setSampler (sampler : Option Nat)
  deriving DecidableEq, Repr, Inhabited

/-- Dispatch of setBuffer / setTexture / setSampler to setDescriptor,
mirroring plume_metal.cpp lines 1652-1710: a null resource forwards a null
descriptor; a formatted view binds its backing texture; a structured view
applies the byte offset firstElement * structureByteStride; a texture view
takes precedence over the texture handle. -/
def runSetCall (desc : RenderDescriptorSetDesc) (st : DescriptorSetState)
    (descriptorIndex : Nat) : SetCall → DescriptorSetState
  | .setBuffer none _ _ => setDescriptor desc st descriptorIndex none
  | .setBuffer (some b) sv fv =>
      match fv with
      | some tex => setDescriptor desc st descriptorIndex (some (.texture tex))
      | none =>
          let offset := match sv with
            | some (firstElement, stride) => firstElement * stride
            | none => 0
          setDescriptor desc st descriptorIndex (some (.buffer b offset))
  | .setTexture none _ => setDescriptor desc st descriptorIndex none
  | .setTexture (some t) tv =>
      setDescriptor desc st descriptorIndex (some (.texture (tv.getD t)))
  | .setSampler none => setDescriptor desc st descriptorIndex none
  | .setSampler (some s) => setDescriptor desc st descriptorIndex (some (.sampler s))

/-- Running a sequence of binding calls (flat index, call) on a fresh set. -/
def runSetCalls (desc : RenderDescriptorSetDesc)
    (ops : List (Nat × SetCall)) : DescriptorSetState :=
  ops.foldl (fun st op => runSetCall desc st op.1 op.2) (initDescriptorSet desc)

/-- A call that passes a null resource. -/
def isNullCall : SetCall → Bool
  | .setBuffer none _ _ => true
  | .setTexture none _ => true
  | .setSampler none => true
  | _ => false

/-- The number of flat descriptor indices of a layout. -/
def flatDescriptorCount (desc : RenderDescriptorSetDesc) : Nat :=
  (descriptorBindingIndices desc.descriptorRanges).length

/-! ## Command list encoder state machine (MetalCommandList,
plume_metal.cpp lines 2079-3172)

The state carries the active encoder kind, one open flag per native
encoder, the bound framebuffer (its number of color attachments), the
pending deferred clears, the dirty-state bitfields of both domains, the
bound descriptor sets and pipeline layouts, the shared push-constant
vector, and an event trace recording every native encoder open/close (a
render-encoder open records the render-pass load actions and clear values
taken from pendingClears, exactly as checkActiveRenderEncoder builds the
render-pass descriptor). -/

/-- EncoderType (plume_metal.h lines 60-66). -/
inductive EncoderType where
  | None
  | Render
  | Compute
  | Blit
  | Resolve
  deriving DecidableEq, Repr, Inhabited

/-- Native load actions used by the source (Load is the reset default,
Clear is set by deferred clears). -/
inductive MTLLoadAction where
  | Load
  | Clear
  deriving DecidableEq, Repr, Inhabited

/-- An abstract clear color; the four components are opaque tokens for the
float channel values (the source only stores and forwards them). -/
structure RenderColor where
  r : Int
  g : Int
  b : Int
  a : Int
  deriving DecidableEq, Repr, Inhabited

/-- The per-attachment clear value union of MetalCommandList: a color for
color slots, a depth token for the depth slot, a stencil value for the
stencil slot; undef is the default-constructed union. -/
inductive ClearValue where
  | undef
  | color (c : RenderColor)
  | depth (d : Int)
  | stencil (v : Nat)
  deriving DecidableEq, Repr, Inhabited

/-- PendingClears (plume_metal.h lines 332-336): one load action and one
clear value per attachment slot (colorAttachments.size() color slots, then
one depth and one stencil slot). -/
structure PendingClears where
  initialAction : List MTLLoadAction
  clearValues : List ClearValue
  active : Bool
  deriving DecidableEq, Repr, Inhabited

/-- GraphicsStateFlags (plume_metal.h lines 107-134); vertexBufferSlots is
a 19-bit dirty mask. -/
structure GraphicsStateFlags where
  pipelineState : Bool
  descriptorSets : Bool
  pushConstants : Bool
  viewports : Bool
  scissors : Bool
  indexBuffer : Bool
  depthBias : Bool
  descriptorSetDirtyIndex : Nat
  vertexBufferSlots : Nat
  deriving DecidableEq, Repr, Inhabited

/-- GraphicsStateFlags::setAll. -/
def GraphicsStateFlags.setAllFlags : GraphicsStateFlags :=
  { pipelineState := true, descriptorSets := true, pushConstants := true
    viewports := true, scissors := true, indexBuffer := true, depthBias := true
    descriptorSetDirtyIndex := 0, vertexBufferSlots := 2 ^ 19 - 1 }

/-- ComputeStateFlags (plume_metal.h lines 90-105). -/
structure ComputeStateFlags where
  pipelineState : Bool
  descriptorSets : Bool
  pushConstants : Bool
  descriptorSetDirtyIndex : Nat
  deriving DecidableEq, Repr, Inhabited

/-- ComputeStateFlags::setAll. -/
def ComputeStateFlags.setAllFlags : ComputeStateFlags :=
  { pipelineState := true, descriptorSets := true, pushConstants := true
    descriptorSetDirtyIndex := 0 }

/-- One push constant range of a pipeline layout. -/
structure RenderPushConstantRange where
  binding : Nat
  set : Nat
  offset : Nat
  size : Nat
  stageFlags : Nat
  deriving DecidableEq, Repr, Inhabited

/-- A pipeline layout: its identity token (standing for the object address,
which is what the source compares) and its push constant ranges. -/
structure PipelineLayout where
  ptrToken : Nat
  pushConstantRanges : List RenderPushConstantRange
  deriving DecidableEq, Repr, Inhabited

/-- A recorded push constant range, as stored in the shared pushConstants
vector of the command list (PushConstantData): range fields plus the byte
buffer (bytes are opaque Nat tokens). -/
structure PushConstantData where
  binding : Nat
  set : Nat
  offset : Nat
  size : Nat
  stageFlags : Nat
  data : List Nat
  deriving DecidableEq, Repr, Inhabited

/-- alignUp with the default 16-byte alignment
((n + alignment - 1) masked down to a multiple of the alignment). -/
def alignUp16 (n : Nat) : Nat := (n + 16 - 1) / 16 * 16

/-- Events of the recording trace: one entry per native encoder
open/close.  A render-encoder open carries the render-pass load actions
and clear values; resolveTexture opens and immediately closes a transient
render pass of its own. -/
inductive CmdEvent where
  | openRenderPass (loadActions : List MTLLoadAction) (clearValues : List ClearValue)
  | closeRenderEncoder
  | openComputeEncoder
  | closeComputeEncoder
  | openBlitEncoder
  | closeBlitEncoder
  | openResolveEncoder
  | closeResolveEncoder
  | transientResolvePass
  deriving DecidableEq, Repr, Inhabited

/-- The recording state of a MetalCommandList. -/
structure CommandListState where
  activeType : EncoderType
  renderEncoderOpen : Bool
  computeEncoderOpen : Bool
  blitEncoderOpen : Bool
  resolveEncoderOpen : Bool
  targetFramebuffer : Option Nat
  pendingClears : PendingClears
  dirtyGraphicsState : GraphicsStateFlags
  dirtyComputeState : ComputeStateFlags
  renderDescriptorSets : List (Option Nat)
  computeDescriptorSets : List (Option Nat)
  activeGraphicsPipelineLayout : Option PipelineLayout
  activeComputePipelineLayout : Option PipelineLayout
  activeRenderState : Option Nat
  pushConstants : List PushConstantData
  stateCacheLastPipelineState : Option Nat
  stateCacheLastViewports : List Nat
  stateCacheLastScissors : List Nat
  stateCacheLastPushConstants : List PushConstantData
  viewportVector : List Nat
  scissorVector : List Nat
  events : List CmdEvent
  deriving DecidableEq, Repr, Inhabited

/-- The state right after begin(): member initializers of MetalCommandList
(no encoder active, zeroed dirty bits, empty bindings). -/
def beginState : CommandListState :=
  { activeType := .None
    renderEncoderOpen := false, computeEncoderOpen := false
    blitEncoderOpen := false, resolveEncoderOpen := false
    targetFramebuffer := none
    pendingClears := { initialAction := [], clearValues := [], active := false }
    dirtyGraphicsState :=
      { pipelineState := false, descriptorSets := false, pushConstants := false
        viewports := false, scissors := false, indexBuffer := false, depthBias := false
        descriptorSetDirtyIndex := 0, vertexBufferSlots := 0 }
    dirtyComputeState :=
      { pipelineState := false, descriptorSets := false, pushConstants := false
        descriptorSetDirtyIndex := 0 }
    renderDescriptorSets := List.replicate 8 none
    computeDescriptorSets := List.replicate 8 none
    activeGraphicsPipelineLayout := none
    activeComputePipelineLayout := none
    activeRenderState := none
    pushConstants := []
    stateCacheLastPipelineState := none
    stateCacheLastViewports := [], stateCacheLastScissors := []
    stateCacheLastPushConstants := []
    viewportVector := [], scissorVector := []
    events := [] }

/-- MetalCommandList::endActiveRenderEncoder (lines 3094-3111): closes the
render encoder when open, marks all graphics state dirty and clears the
last-bound state cache. -/
def endActiveRenderEncoder (s : CommandListState) : CommandListState :=
  if s.renderEncoderOpen then
    { s with renderEncoderOpen := false
             events := s.events ++ [.closeRenderEncoder]
             dirtyGraphicsState := GraphicsStateFlags.setAllFlags
             stateCacheLastPipelineState := none
             stateCacheLastViewports := []
             stateCacheLastScissors := []
             stateCacheLastPushConstants := [] }
  else s

/-- MetalCommandList::endActiveComputeEncoder (lines 2945-2956). -/
def endActiveComputeEncoder (s : CommandListState) : CommandListState :=
  if s.computeEncoderOpen then
    { s with computeEncoderOpen := false
             events := s.events ++ [.closeComputeEncoder]
             stateCacheLastPushConstants := [] }
  else s

/-- MetalCommandList::endActiveBlitEncoder (lines 3123-3129). -/
def endActiveBlitEncoder (s : CommandListState) : CommandListState :=
  if s.blitEncoderOpen then
    { s with blitEncoderOpen := false, events := s.events ++ [.closeBlitEncoder] }
  else s

/-- MetalCommandList::endActiveResolveTextureComputeEncoder (lines 3144-3150). -/
def endActiveResolveTextureComputeEncoder (s : CommandListState) : CommandListState :=
  if s.resolveEncoderOpen then
    { s with resolveEncoderOpen := false, events := s.events ++ [.closeResolveEncoder] }
  else s

/-- MetalCommandList::endOtherEncoders (lines 2875-2901): early-returns
when the requested kind is already active, otherwise closes whichever
encoder kind is currently active. -/
def endOtherEncoders (t : EncoderType) (s : CommandListState) : CommandListState :=
  if s.activeType = t then s
  else
    match s.activeType with
    | .None => s
    | .Render => endActiveRenderEncoder s
    | .Compute => endActiveComputeEncoder s
    | .Blit => endActiveBlitEncoder s
    | .Resolve => endActiveResolveTextureComputeEncoder s

/-- MetalCommandList::checkActiveRenderEncoder (lines 2958-3017): closes
other encoders; forces a fresh render pass when deferred clears are
pending; opens a render encoder (when none is open) whose pass descriptor
takes each attachment load action and clear value from pendingClears; then
resets the pending clears to Load / inactive. -/
def checkActiveRenderEncoder (s : CommandListState) : CommandListState :=
  let s1 := endOtherEncoders .Render s
  let s2 := if s1.pendingClears.active then endActiveRenderEncoder s1 else s1
  let s3 := { s2 with activeType := .Render }
  if s3.renderEncoderOpen then s3
  else
    let s4 := { s3 with
      renderEncoderOpen := true
      events := s3.events ++
        [CmdEvent.openRenderPass s3.pendingClears.initialAction s3.pendingClears.clearValues] }
    if s4.pendingClears.active then
      { s4 with pendingClears :=
          { initialAction := s4.pendingClears.initialAction.map (fun _ => .Load)
            clearValues := s4.pendingClears.clearValues
            active := false } }
    else s4

/-- MetalCommandList::handlePendingClears (lines 2433-2440): when clears
are pending, open a render encoder (whose pass applies them) and close it
again. -/
def handlePendingClears (s : CommandListState) : CommandListState :=
  if s.pendingClears.active then
    endActiveRenderEncoder (checkActiveRenderEncoder s)
  else s

/-- The dirty-state flush of MetalCommandList::checkActiveComputeEncoder
(lines 2921-2942): binds the pipeline state, descriptor sets and
compute-stage push constants that are marked dirty and clears the bits. -/
def flushComputeState (s : CommandListState) : CommandListState :=
  let s1 := if s.dirtyComputeState.pipelineState then
      { s with dirtyComputeState := { s.dirtyComputeState with pipelineState := false } }
    else s
  let s2 := if s1.dirtyComputeState.descriptorSets then
      { s1 with dirtyComputeState :=
          { s1.dirtyComputeState with descriptorSets := false, descriptorSetDirtyIndex := 8 } }
    else s1
  if s2.dirtyComputeState.pushConstants then
    { s2 with stateCacheLastPushConstants := s2.pushConstants
              dirtyComputeState := { s2.dirtyComputeState with pushConstants := false } }
  else s2

/-- MetalCommandList::checkActiveComputeEncoder (lines 2903-2943): closes
other encoders, opens a compute encoder (marking all compute state dirty)
when none is open, then flushes the dirty compute state. -/
def checkActiveComputeEncoder (s : CommandListState) : CommandListState :=
  let s1 := endOtherEncoders .Compute s
  let s2 := { s1 with activeType := .Compute }
  let s3 := if s2.computeEncoderOpen then s2
    else
      { s2 with computeEncoderOpen := true
                events := s2.events ++ [.openComputeEncoder]
                dirtyComputeState := ComputeStateFlags.setAllFlags }
  flushComputeState s3

/-- MetalCommandList::checkActiveBlitEncoder (lines 3113-3121). -/
def checkActiveBlitEncoder (s : CommandListState) : CommandListState :=
  let s1 := endOtherEncoders .Blit s
  let s2 := { s1 with activeType := .Blit }
  if s2.blitEncoderOpen then s2
  else { s2 with blitEncoderOpen := true, events := s2.events ++ [.openBlitEncoder] }

/-- MetalCommandList::checkActiveResolveTextureComputeEncoder
(lines 3131-3142). -/
def checkActiveResolveTextureComputeEncoder (s : CommandListState) : CommandListState :=
  let s1 := endOtherEncoders .Resolve s
  let s2 := { s1 with activeType := .Resolve }
  if s2.resolveEncoderOpen then s2
  else { s2 with resolveEncoderOpen := true, events := s2.events ++ [.openResolveEncoder] }

/-- MetalCommandList::checkForUpdatesInGraphicsState (lines 3019-3092)
flushes the dirty graphics state in the fixed order pipeline, viewports,
depth bias, scissors, vertex buffers, descriptor sets, push constants; the
viewport and scissor branches return early from the whole flush when their
vectors are empty.  It is embedded below as a composition of one function
per step.  The pipeline-state step (lines 3020-3031): -/
def flushGraphicsPipeline (s : CommandListState) : CommandListState :=
  if s.dirtyGraphicsState.pipelineState then
    match s.activeRenderState with
    | some p =>
        { s with stateCacheLastPipelineState := some p
                 dirtyGraphicsState := { s.dirtyGraphicsState with pipelineState := false } }
    | none =>
        { s with dirtyGraphicsState := { s.dirtyGraphicsState with pipelineState := false } }
  else s

/-- The viewport step of the flush (lines 3033-3039, past the empty-vector
early return). -/
def flushGraphicsViewports (s : CommandListState) : CommandListState :=
  if s.dirtyGraphicsState.viewports then
    { s with stateCacheLastViewports := s.viewportVector
             dirtyGraphicsState := { s.dirtyGraphicsState with viewports := false } }
  else s

/-- The depth-bias step of the flush (lines 3041-3049). -/
def flushGraphicsDepthBias (s : CommandListState) : CommandListState :=
  if s.dirtyGraphicsState.depthBias then
    { s with dirtyGraphicsState := { s.dirtyGraphicsState with depthBias := false } }
  else s

/-- The scissor step of the flush (lines 3051-3057, past the empty-vector
early return). -/
def flushGraphicsScissors (s : CommandListState) : CommandListState :=
  if s.dirtyGraphicsState.scissors then
    { s with stateCacheLastScissors := s.scissorVector
             dirtyGraphicsState := { s.dirtyGraphicsState with scissors := false } }
  else s

/-- The vertex-buffer step of the flush (lines 3059-3067): rebinds the
dirty slots and clears the mask. -/
def flushGraphicsVertexBuffers (s : CommandListState) : CommandListState :=
  if s.dirtyGraphicsState.vertexBufferSlots ≠ 0 then
    { s with dirtyGraphicsState := { s.dirtyGraphicsState with vertexBufferSlots := 0 } }
  else s

/-- The descriptor-set step of the flush (lines 3069-3075). -/
def flushGraphicsDescriptorSets (s : CommandListState) : CommandListState :=
  if s.dirtyGraphicsState.descriptorSets then
    { s with dirtyGraphicsState :=
        { s.dirtyGraphicsState with descriptorSets := false, descriptorSetDirtyIndex := 9 } }
  else s

/-- The push-constant step of the flush (lines 3077-3091). -/
def flushGraphicsPushConstants (s : CommandListState) : CommandListState :=
  if s.dirtyGraphicsState.pushConstants then
    { s with stateCacheLastPushConstants := s.pushConstants
             dirtyGraphicsState := { s.dirtyGraphicsState with pushConstants := false } }
  else s

def checkForUpdatesInGraphicsState (s : CommandListState) : CommandListState :=
  let s1 := flushGraphicsPipeline s
  if s1.dirtyGraphicsState.viewports ∧ s1.viewportVector.isEmpty then s1
  else
  let s2 := flushGraphicsViewports s1
  let s3 := flushGraphicsDepthBias s2
  if s3.dirtyGraphicsState.scissors ∧ s3.scissorVector.isEmpty then s3
  else
  let s4 := flushGraphicsScissors s3
  let s5 := flushGraphicsVertexBuffers s4
  let s6 := flushGraphicsDescriptorSets s5
  flushGraphicsPushConstants s6

/-- std::vector resize: keep the prefix, default-fill growth. -/
def listResize {α : Type} [Inhabited α] (l : List α) (n : Nat) : List α :=
  l.take n ++ List.replicate (n - l.length) default

/-- MetalCommandList::setFramebuffer (lines 2394-2417): closes any open
encoder, flushes pending clears, switches to the Render kind and, for a
non-null framebuffer (carried as its number of color attachments), marks
all graphics state dirty and resets pendingClears to one Load slot per
color attachment plus one depth and one stencil slot. -/
def setFramebufferOp (fb : Option Nat) (s : CommandListState) : CommandListState :=
  let s1 := endOtherEncoders .Render s
  let s2 := endActiveRenderEncoder s1
  let s3 := handlePendingClears s2
  let s4 := { s3 with activeType := .Render }
  match fb with
  | some colorCount =>
      { s4 with targetFramebuffer := some colorCount
                dirtyGraphicsState := GraphicsStateFlags.setAllFlags
                pendingClears :=
                  { initialAction := List.replicate (colorCount + 2) .Load
                    clearValues := List.replicate (colorCount + 2) .undef
                    active := false } }
  | none => { s4 with targetFramebuffer := none }

/-- MetalCommandList::clearColor (lines 2442-2532): with no clear rects,
records a pending Clear load action and the clear color for the attachment
and returns without touching any encoder; with clear rects, ensures a
render encoder is open, draws the clear quads with a borrowed pipeline,
restores the state cache captured after the encoder check and marks all
graphics state dirty. -/
def clearColorOp (attachmentIndex : Nat) (c : RenderColor) (clearRectsCount : Nat)
    (s : CommandListState) : CommandListState :=
  if clearRectsCount = 0 then
    { s with pendingClears :=
        { initialAction := s.pendingClears.initialAction.set attachmentIndex .Clear
          clearValues := s.pendingClears.clearValues.set attachmentIndex (.color c)
          active := true } }
  else
    let s1 := checkActiveRenderEncoder s
    { s1 with dirtyGraphicsState := GraphicsStateFlags.setAllFlags }

/-- MetalCommandList::clearDepthStencil (lines 2534-2635): same deferral
scheme at the depth slot (colorAttachments.size()) and the stencil slot
(one past it); a call with neither clearDepth nor clearStencil does
nothing. -/
def clearDepthStencilOp (clearDepth clearStencil : Bool) (d : Int) (stencilValue : Nat)
    (clearRectsCount : Nat) (s : CommandListState) : CommandListState :=
  if clearDepth ∨ clearStencil then
    if clearRectsCount = 0 then
      let depthIndex := s.targetFramebuffer.getD 0
      let a1 := if clearDepth then s.pendingClears.initialAction.set depthIndex .Clear
        else s.pendingClears.initialAction
      let v1 := if clearDepth then s.pendingClears.clearValues.set depthIndex (.depth d)
        else s.pendingClears.clearValues
      let a2 := if clearStencil then a1.set (depthIndex + 1) .Clear else a1
      let v2 := if clearStencil then v1.set (depthIndex + 1) (.stencil stencilValue) else v1
      { s with pendingClears := { initialAction := a2, clearValues := v2, active := true } }
    else
      let s1 := checkActiveRenderEncoder s
      { s1 with dirtyGraphicsState := GraphicsStateFlags.setAllFlags }
  else s

/-- MetalCommandList::barriers (lines 2118-2129): returns immediately when
both barrier lists are empty; otherwise closes the active render encoder
and flushes the pending clears. -/
def barriersOp (bufferBarriersCount textureBarriersCount : Nat)
    (s : CommandListState) : CommandListState :=
  if bufferBarriersCount = 0 ∧ textureBarriersCount = 0 then s
  else handlePendingClears (endActiveRenderEncoder s)

/-- MetalCommandList::drawInstanced (lines 2170-2175): render encoder
check, then the dirty graphics state flush, then the native draw. -/
def drawInstancedOp (s : CommandListState) : CommandListState :=
  checkForUpdatesInGraphicsState (checkActiveRenderEncoder s)

/-- MetalCommandList::drawIndexedInstanced (lines 2177-2182): identical
encoder and flush sequence. -/
def drawIndexedInstancedOp (s : CommandListState) : CommandListState :=
  checkForUpdatesInGraphicsState (checkActiveRenderEncoder s)

/-- MetalCommandList::dispatch (lines 2131-2138): compute encoder check
(which opens and flushes), then the native dispatch. -/
def dispatchOp (s : CommandListState) : CommandListState :=
  checkActiveComputeEncoder s

/-- The common encoder sequence of the four copy operations
(copyBufferRegion / copyTextureRegion / copyBuffer / copyTexture,
lines 2637-2753): endOtherEncoders(Blit), checkActiveBlitEncoder,
activeType = Blit. -/
def blitCommandOp (s : CommandListState) : CommandListState :=
  let s1 := endOtherEncoders .Blit s
  let s2 := checkActiveBlitEncoder s1
  { s2 with activeType := .Blit }

/-- MetalCommandList::resolveTexture (lines 2755-2783): closes the render
encoder and other encoders, flushes pending clears, switches to the Render
kind and runs a transient resolve render pass that is opened and closed
within the call. -/
def resolveTextureOp (s : CommandListState) : CommandListState :=
  let s1 := endOtherEncoders .Render s
  let s2 := endActiveRenderEncoder s1
  let s3 := handlePendingClears s2
  { s3 with activeType := .Render, events := s3.events ++ [.transientResolvePass] }

/-- MetalCommandList::resolveTextureRegion (lines 2785-2851): a
full-texture resolve delegates to resolveTexture; a partial resolve uses
the dedicated resolve compute encoder. -/
def resolveTextureRegionOp (canUseFullResolve : Bool)
    (s : CommandListState) : CommandListState :=
  if canUseFullResolve then resolveTextureOp s
  else
    let s1 := endOtherEncoders .Resolve s
    let s2 := checkActiveResolveTextureComputeEncoder s1
    { s2 with activeType := .Resolve }

/-- MetalCommandList::end (lines 2096-2110): fixed teardown order render,
pending clears, resolve, blit, compute; drops the framebuffer. -/
def endOp (s : CommandListState) : CommandListState :=
  let s1 := endActiveRenderEncoder s
  let s2 := handlePendingClears s1
  let s3 := endActiveResolveTextureComputeEncoder s2
  let s4 := endActiveBlitEncoder s3
  let s5 := endActiveComputeEncoder s4
  { s5 with targetFramebuffer := none }

/-- MetalCommandList::setGraphicsPipelineLayout (lines 2265-2286): a layout
different from the active one nulls the graphics descriptor-set slots,
clears the shared push constants and their cache, and marks graphics
descriptor sets and push constants dirty from set index 0. -/
def setGraphicsPipelineLayoutOp (layout : PipelineLayout)
    (s : CommandListState) : CommandListState :=
  let old := s.activeGraphicsPipelineLayout
  let s1 := { s with activeGraphicsPipelineLayout := some layout }
  if old ≠ some layout then
    { s1 with renderDescriptorSets := List.replicate 8 none
              pushConstants := []
              stateCacheLastPushConstants := []
              dirtyGraphicsState :=
                { s1.dirtyGraphicsState with
                    descriptorSets := true, pushConstants := true
                    descriptorSetDirtyIndex := 0 } }
  else s1

/-- MetalCommandList::setComputePipelineLayout (lines 2212-2233): the
compute-domain counterpart. -/
def setComputePipelineLayoutOp (layout : PipelineLayout)
    (s : CommandListState) : CommandListState :=
  let old := s.activeComputePipelineLayout
  let s1 := { s with activeComputePipelineLayout := some layout }
  if old ≠ some layout then
    { s1 with computeDescriptorSets := List.replicate 8 none
              pushConstants := []
              stateCacheLastPushConstants := []
              dirtyComputeState :=
                { s1.dirtyComputeState with
                    descriptorSets := true, pushConstants := true
                    descriptorSetDirtyIndex := 0 } }
  else s1

/-- The shared body of setGraphicsPushConstants / setComputePushConstants
(lines 2235-2252 and 2288-2305): resize the shared vector to the active
layout range count, resize the range buffer to the range size, copy
size bytes (the whole range when size is 0) at the offset, store the range
fields with the 16-byte aligned size.  Returns none when the layout is
absent or the range index is out of bounds (contract assertion in the
source). -/
def writePushConstants (layoutOpt : Option PipelineLayout) (rangeIndex : Nat)
    (data : List Nat) (offset size : Nat)
    (pushConstants : List PushConstantData) : Option (List PushConstantData) :=
  match layoutOpt with
  | none => none
  | some layout =>
      match layout.pushConstantRanges[rangeIndex]? with
      | none => none
      | some range =>
          let resizedVec := listResize pushConstants layout.pushConstantRanges.length
          let oldEntry := resizedVec.getD rangeIndex default
          let resizedData := listResize oldEntry.data range.size
          let copyLen := if size = 0 then range.size else size
          let newData := resizedData.take offset ++ data.take copyLen
            ++ resizedData.drop (offset + copyLen)
          some (resizedVec.set rangeIndex
            { binding := range.binding, set := range.set, offset := range.offset
              size := alignUp16 range.size, stageFlags := range.stageFlags
              data := newData })

/-- MetalCommandList::setGraphicsPushConstants. -/
def setGraphicsPushConstantsOp (rangeIndex : Nat) (data : List Nat)
    (offset size : Nat) (s : CommandListState) : CommandListState :=
  match writePushConstants s.activeGraphicsPipelineLayout rangeIndex data offset size
      s.pushConstants with
  | some pc =>
      { s with pushConstants := pc
               dirtyGraphicsState := { s.dirtyGraphicsState with pushConstants := true } }
  | none => s

/-- MetalCommandList::setComputePushConstants. -/
def setComputePushConstantsOp (rangeIndex : Nat) (data : List Nat)
    (offset size : Nat) (s : CommandListState) : CommandListState :=
  match writePushConstants s.activeComputePipelineLayout rangeIndex data offset size
      s.pushConstants with
  | some pc =>
      { s with pushConstants := pc
               dirtyComputeState := { s.dirtyComputeState with pushConstants := true } }
  | none => s

/-- MetalCommandList::setGraphicsDescriptorSet (lines 2307-2316): only a
changed slot marks descriptor sets dirty and lowers the dirty set index. -/
def setGraphicsDescriptorSetOp (descriptorSet : Option Nat) (setIndex : Nat)
    (s : CommandListState) : CommandListState :=
  if s.renderDescriptorSets.getD setIndex none ≠ descriptorSet then
    { s with renderDescriptorSets := s.renderDescriptorSets.set setIndex descriptorSet
             dirtyGraphicsState :=
               { s.dirtyGraphicsState with
                   descriptorSets := true
                   descriptorSetDirtyIndex :=
                     min s.dirtyGraphicsState.descriptorSetDirtyIndex setIndex } }
  else s

/-- MetalCommandList::setComputeDescriptorSet (lines 2254-2263). -/
def setComputeDescriptorSetOp (descriptorSet : Option Nat) (setIndex : Nat)
    (s : CommandListState) : CommandListState :=
  if s.computeDescriptorSets.getD setIndex none ≠ descriptorSet then
    { s with computeDescriptorSets := s.computeDescriptorSets.set setIndex descriptorSet
             dirtyComputeState :=
               { s.dirtyComputeState with
                   descriptorSets := true
                   descriptorSetDirtyIndex :=
                     min s.dirtyComputeState.descriptorSetDirtyIndex setIndex } }
  else s

/-- The recording operations of the command list covered by the model. -/
inductive CmdOp where
  | setFramebuffer (fb : Option Nat)
  | clearColor (attachmentIndex : Nat) (c : RenderColor) (clearRectsCount : Nat)
  | clearDepthStencil (clearDepth clearStencil : Bool) (d : Int)
      (stencilValue : Nat) (clearRectsCount : Nat)
  | barriers (bufferBarriersCount textureBarriersCount : Nat)
  | drawInstanced
  | drawIndexedInstanced
  | dispatch
  | copyBufferRegion
  | copyTextureRegion
  | copyBuffer
  | copyTexture
  | resolveTexture
  | resolveTextureRegion (canUseFullResolve : Bool)
  | setGraphicsPipelineLayout (layout : PipelineLayout)
  | setComputePipelineLayout (layout : PipelineLayout)
  | setGraphicsPushConstants (rangeIndex : Nat) (data : List Nat) (offset size : Nat)
  | setComputePushConstants (rangeIndex : Nat) (data : List Nat) (offset size : Nat)
  | setGraphicsDescriptorSet (descriptorSet : Option Nat) (setIndex : Nat)
  | setComputeDescriptorSet (descriptorSet : Option Nat) (setIndex : Nat)
  | endRecording
  deriving DecidableEq, Repr, Inhabited

/-- One recording step. -/
def stepOp (s : CommandListState) : CmdOp → CommandListState
  | .setFramebuffer fb => setFramebufferOp fb s
  | .clearColor i c n => clearColorOp i c n s
  | .clearDepthStencil cd cs d stv n => clearDepthStencilOp cd cs d stv n s
  | .barriers bc tc => barriersOp bc tc s
  | .drawInstanced => drawInstancedOp s
  | .drawIndexedInstanced => drawIndexedInstancedOp s
  | .dispatch => dispatchOp s
  | .copyBufferRegion => blitCommandOp s
  | .copyTextureRegion => blitCommandOp s
  | .copyBuffer => blitCommandOp s
  | .copyTexture => blitCommandOp s
  | .resolveTexture => resolveTextureOp s
  | .resolveTextureRegion canFull => resolveTextureRegionOp canFull s
  | .setGraphicsPipelineLayout l => setGraphicsPipelineLayoutOp l s
  | .setComputePipelineLayout l => setComputePipelineLayoutOp l s
  | .setGraphicsPushConstants ri d o sz => setGraphicsPushConstantsOp ri d o sz s
  | .setComputePushConstants ri d o sz => setComputePushConstantsOp ri d o sz s
  | .setGraphicsDescriptorSet ds i => setGraphicsDescriptorSetOp ds i s
  | .setComputeDescriptorSet ds i => setComputeDescriptorSetOp ds i s
  | .endRecording => endOp s

/-- Recording a sequence of operations from the begin() state. -/
def runOps (ops : List CmdOp) : CommandListState :=
  ops.foldl stepOp beginState

/-- Number of native encoders currently open. -/
def openEncoderCount (s : CommandListState) : Nat :=
  (cond s.renderEncoderOpen 1 0) + (cond s.computeEncoderOpen 1 0)
    + (cond s.blitEncoderOpen 1 0) + (cond s.resolveEncoderOpen 1 0)

/-- The inductive invariant of the encoder state machine: an open encoder
is always of the active kind (which immediately gives exclusivity, since
only one kind is active). -/
def EncoderConsistent (s : CommandListState) : Prop :=
  (s.renderEncoderOpen = true → s.activeType = .Render) ∧
  (s.computeEncoderOpen = true → s.activeType = .Compute) ∧
  (s.blitEncoderOpen = true → s.activeType = .Blit) ∧
  (s.resolveEncoderOpen = true → s.activeType = .Resolve)

instance (s : CommandListState) : Decidable (EncoderConsistent s) := by
  unfold EncoderConsistent
  infer_instance

/-- A concrete recording state with an open render encoder, used by the
C1 and C6 witnesses. -/
def renderOpenState : CommandListState :=
  { beginState with activeType := .Render, renderEncoderOpen := true }

/-- An event that opens a render pass (a lazily opened render encoder or
the transient resolve pass). -/
def isRenderPassOpenEvent : CmdEvent → Bool
  | .openRenderPass _ _ => true
  | .transientResolvePass => true
  | _ => false

/-- A compute pipeline layout with one push constant range, for the C7
counterexample. -/
def computeLayoutA : PipelineLayout :=
  { ptrToken := 1
    pushConstantRanges :=
      [{ binding := 0, set := 0, offset := 0, size := 4, stageFlags := 1 }] }

/-- A distinct graphics pipeline layout, for the C7 counterexample. -/
def graphicsLayoutB : PipelineLayout :=
  { ptrToken := 2, pushConstantRanges := [] }

/-! ## Swap chain (MetalSwapChain, plume_metal.cpp lines 1794-1965)

The swap chain caches the window size, owns a fixed ring of MAX_DRAWABLES
drawable slots and wraps a native layer whose drawable size is changed
only through setDrawableSize (counted here).  acquireTexture records its
externally visible steps in an action list, in program order. -/

/-- One drawable ring slot (MetalDrawable): its texture description and
the lazily acquired native drawable handle. -/
structure MetalDrawableSlot where
  descWidth : Nat
  descHeight : Nat
  descFormat : RenderFormat
  isRenderTarget : Bool
  mtl : Option Nat
  deriving DecidableEq, Repr, Inhabited

/-- The externally visible steps of acquireTexture, in order. -/
inductive AcquireAction where
  | commitSignal (semaphore : Nat)
  | queryNextDrawable
  deriving DecidableEq, Repr, Inhabited

/-- The state of a MetalSwapChain: cached window size, native layer
drawable size (plus a count of setDrawableSize calls), the drawable ring,
the next available ring index, the committed signal-only command buffers
(by semaphore token) and the action trace. -/
structure SwapChainState where
  width : Nat
  height : Nat
  layerDrawableWidth : Nat
  layerDrawableHeight : Nat
  setDrawableSizeCalls : Nat
  drawables : List MetalDrawableSlot
  currentAvailableDrawableIndex : Nat
  committedSignals : List Nat
  actions : List AcquireAction
  deriving DecidableEq, Repr, Inhabited

/-- Metal supports a maximum of 3 drawables (MAX_DRAWABLES). -/
def MAX_DRAWABLES : Nat := 3

/-- The MetalSwapChain constructor (lines 1794-1816): caches the queried
window size and initializes MAX_DRAWABLES render-target drawable slots of
that size.  The native layer drawable size is whatever the externally
provided layer carries. -/
def initSwapChain (windowWidth windowHeight : Nat) (format : RenderFormat)
    (layerWidth layerHeight : Nat) : SwapChainState :=
  { width := windowWidth
    height := windowHeight
    layerDrawableWidth := layerWidth
    layerDrawableHeight := layerHeight
    setDrawableSizeCalls := 0
    drawables := List.replicate MAX_DRAWABLES
      { descWidth := windowWidth, descHeight := windowHeight
        descFormat := format, isRenderTarget := true, mtl := none }
    currentAvailableDrawableIndex := 0
    committedSignals := []
    actions := [] }

/-- MetalSwapChain::resize (lines 1861-1880): queries the window size into
the cached members, fails on a zero dimension, and updates the native
layer drawable size (and the drawable descriptions) only when it differs
from the queried size. -/
def swapChainResize (windowWidth windowHeight : Nat)
    (s : SwapChainState) : Bool × SwapChainState :=
  let s1 := { s with width := windowWidth, height := windowHeight }
  if windowWidth = 0 ∨ windowHeight = 0 then (false, s1)
  else if (s1.layerDrawableWidth, s1.layerDrawableHeight) ≠ (windowWidth, windowHeight) then
    (true, { s1 with
        layerDrawableWidth := windowWidth
        layerDrawableHeight := windowHeight
        setDrawableSizeCalls := s1.setDrawableSizeCalls + 1
        drawables := s1.drawables.map (fun d =>
          { d with descWidth := windowWidth, descHeight := windowHeight }) })
  else (true, s1)

/-- MetalSwapChain::acquireTexture (lines 1908-1942): commits the
signal-only command buffer for the semaphore, then asks the layer for the
next drawable (an external input here, carrying the native handle plus its
texture pixel format); on failure it returns false leaving the ring
untouched, on success it stores the drawable in the slot at
currentAvailableDrawableIndex and reports that index. -/
def acquireTexture (signalSemaphore : Nat)
    (nextDrawable : Option (Nat × MTLPixelFormat)) (s : SwapChainState) :
    Bool × Option Nat × SwapChainState :=
  let s1 := { s with
      committedSignals := s.committedSignals ++ [signalSemaphore]
      actions := s.actions ++ [.commitSignal signalSemaphore, .queryNextDrawable] }
  match nextDrawable with
  | none => (false, none, s1)
  | some (d, pf) =>
      let newSlot : MetalDrawableSlot :=
        { descWidth := s1.width, descHeight := s1.height
          descFormat := mapRenderFormat pf, isRenderTarget := true, mtl := some d }
      (true, some s1.currentAvailableDrawableIndex,
       { s1 with drawables :=
          s1.drawables.set s1.currentAvailableDrawableIndex newSlot })

/-- C8 counterexample: R32G32B32_FLOAT is in the supported list, is not a
TYPELESS variant, yet does not round-trip through the native pixel format:
it maps to RGBA32Float, which maps back to R32G32B32A32_FLOAT. -/
theorem claim8_counterexample :
    RenderFormat.R32G32B32_FLOAT ∈ supportedRenderFormats ∧
    isTypelessFormat RenderFormat.R32G32B32_FLOAT = false ∧
    mapRenderFormat (mapPixelFormat RenderFormat.R32G32B32_FLOAT) ≠
      RenderFormat.R32G32B32_FLOAT := by
  refine ⟨by decide, by decide, by decide⟩

/-- C8 (amended): for every format in the supported list that is neither a
TYPELESS variant nor one of the three-component R32G32B32 formats (which map
to the four-component RGBA32 native formats), mapping to the native pixel
format and back yields the original format. -/
theorem claim8_format_roundtrip (f : RenderFormat)
    (hmem : f ∈ supportedRenderFormats)
    (ht : isTypelessFormat f = false)
    (h3 : isThreeComponent32Format f = false) :
    mapRenderFormat (mapPixelFormat f) = f := by
  cases f <;>
    first
      | rfl
      | exact absurd ht (by decide)
      | exact absurd h3 (by decide)

/-- C8 witness: the round-trip theorem applied at the concrete format
R8G8B8A8_UNORM. -/
theorem claim8_witness :
    RenderFormat.R8G8B8A8_UNORM ∈ supportedRenderFormats ∧
    isTypelessFormat RenderFormat.R8G8B8A8_UNORM = false ∧
    isThreeComponent32Format RenderFormat.R8G8B8A8_UNORM = false ∧
    mapRenderFormat (mapPixelFormat RenderFormat.R8G8B8A8_UNORM) =
      RenderFormat.R8G8B8A8_UNORM :=
  ⟨by decide, by decide, by decide,
   claim8_format_roundtrip RenderFormat.R8G8B8A8_UNORM (by decide) (by decide) (by decide)⟩

/-- C3: a layout built from three non-boundless ranges at bindings 0, 2 and
5 (count 1 each, any resource types) emits exactly six argument
descriptors, in ascending binding order: real entries at slots 0, 2 and 5
and zero-length placeholder entries at the skipped slots 1, 3 and 4. -/
theorem claim3_gap_padding (maxTextureSize : Nat)
    (t0 t2 t5 : RenderDescriptorRangeType) :
    layoutArgumentDescriptors maxTextureSize
      { descriptorRanges :=
          [{ binding := 0, count := 1, rangeType := t0 },
           { binding := 2, count := 1, rangeType := t2 },
           { binding := 5, count := 1, rangeType := t5 }]
        lastRangeIsBoundless := false
        boundlessRangeSize := 0 } =
      [realDescriptor { binding := 0, count := 1, rangeType := t0 },
       placeholderDescriptor 1,
       realDescriptor { binding := 2, count := 1, rangeType := t2 },
       placeholderDescriptor 3,
       placeholderDescriptor 4,
       realDescriptor { binding := 5, count := 1, rangeType := t5 }] := by
  rfl

/-- Helper for C4: every slot index emitted for ranges whose bindings all
lie below B is itself below B (padding indices lie strictly below the
padded-to binding; real indices equal their binding). -/
theorem emitArgumentDescriptors_index_lt (B : Nat) :
    ∀ (rs : List RenderDescriptorRange) (cur : Nat),
      (∀ r ∈ rs, r.binding < B) →
      ∀ d ∈ emitArgumentDescriptors rs cur, d.index < B := by
  intro rs
  induction rs with
  | nil => intro cur _ d hd; simp [emitArgumentDescriptors] at hd
  | cons r rest ih =>
      intro cur hb d hd
      simp only [emitArgumentDescriptors, List.mem_append, List.mem_cons, List.mem_map] at hd
      rcases hd with ⟨i, hi, rfl⟩ | rfl | hd
      · rw [List.mem_range'_1] at hi
        have hrB : r.binding < B := hb r (by simp)
        simp only [placeholderDescriptor]
        omega
      · exact hb r (by simp)
      · exact ih (max cur r.binding + 1) (fun s hs => hb s (by simp [hs])) d hd

/-- C4: for a descriptor set layout whose last range is boundless (the
boundless range being the highest-binding one, as required by the layout
contract), the emitted argument-descriptor list contains exactly one entry
at that binding; that entry is the final one, its array capacity is the
device maxTextureSize, and the whole emitted list is unchanged if the
requested boundlessRangeSize is replaced by any other value. -/
theorem claim4_boundless_capacity (maxTextureSize : Nat)
    (desc : RenderDescriptorSetDesc) (lastR : RenderDescriptorRange)
    (hb : desc.lastRangeIsBoundless = true)
    (hlast : (sortRanges desc.descriptorRanges)[desc.descriptorRanges.length - 1]? =
      some lastR)
    (hmax : ∀ r ∈ (sortRanges desc.descriptorRanges).take
        (desc.descriptorRanges.length - 1), r.binding < lastR.binding)
    (s : Nat) :
    (layoutArgumentDescriptors maxTextureSize desc).countP
        (fun d => d.index == lastR.binding) = 1 ∧
    (layoutArgumentDescriptors maxTextureSize desc).getLast? =
        some (boundlessDescriptor maxTextureSize lastR) ∧
    layoutArgumentDescriptors maxTextureSize
        { desc with boundlessRangeSize := s } =
      layoutArgumentDescriptors maxTextureSize desc := by
  have hdef : layoutArgumentDescriptors maxTextureSize desc =
      emitArgumentDescriptors
        ((sortRanges desc.descriptorRanges).take (desc.descriptorRanges.length - 1)) 0
        ++ [boundlessDescriptor maxTextureSize lastR] := by
    simp [layoutArgumentDescriptors, hb, hlast]
  have hdef2 : layoutArgumentDescriptors maxTextureSize
      { desc with boundlessRangeSize := s } =
      emitArgumentDescriptors
        ((sortRanges desc.descriptorRanges).take (desc.descriptorRanges.length - 1)) 0
        ++ [boundlessDescriptor maxTextureSize lastR] := by
    simp [layoutArgumentDescriptors, hb, hlast]
  refine ⟨?_, ?_, ?_⟩
  · rw [hdef, List.countP_append]
    have hzero : (emitArgumentDescriptors
        ((sortRanges desc.descriptorRanges).take (desc.descriptorRanges.length - 1)) 0).countP
        (fun d => d.index == lastR.binding) = 0 := by
      rw [List.countP_eq_zero]
      intro d hd
      have := emitArgumentDescriptors_index_lt lastR.binding _ 0 hmax d hd
      simp only [beq_iff_eq]
      omega
    rw [hzero]
    simp [boundlessDescriptor, List.countP_cons]
  · rw [hdef]
    simp
  · rw [hdef, hdef2]

/-- C4 witness: the boundless theorem applied to the concrete layout with a
texture range at binding 0 and a boundless sampler range at binding 1, with
device maxTextureSize 42 and requested boundlessRangeSize 7 replaced by 99. -/
theorem claim4_witness :
    ((sortRanges [{ binding := 0, count := 1, rangeType := .TEXTURE },
                  { binding := 1, count := 1, rangeType := .SAMPLER }])[1]? =
        some { binding := 1, count := 1, rangeType := .SAMPLER }) ∧
    (layoutArgumentDescriptors 42
        { descriptorRanges :=
            [{ binding := 0, count := 1, rangeType := .TEXTURE },
             { binding := 1, count := 1, rangeType := .SAMPLER }]
          lastRangeIsBoundless := true
          boundlessRangeSize := 7 }).countP (fun d => d.index == 1) = 1 :=
  ⟨by decide,
   (claim4_boundless_capacity 42
      { descriptorRanges :=
          [{ binding := 0, count := 1, rangeType := .TEXTURE },
           { binding := 1, count := 1, rangeType := .SAMPLER }]
        lastRangeIsBoundless := true
        boundlessRangeSize := 7 }
      { binding := 1, count := 1, rangeType := .SAMPLER }
      rfl (by decide) (by decide) 99).1⟩

theorem runSetCall_length (desc : RenderDescriptorSetDesc) (st : DescriptorSetState)
    (i : Nat) (c : SetCall) :
    (runSetCall desc st i c).resourceEntries.length = st.resourceEntries.length := by
  cases c with
  | setBuffer b sv fv =>
      cases b with
      | none => simp [runSetCall, setDescriptor]
      | some bb => cases fv <;> simp [runSetCall, setDescriptor]
  | setTexture t tv => cases t <;> simp [runSetCall, setDescriptor]
  | setSampler s => cases s <;> simp [runSetCall, setDescriptor]

theorem runSetCalls_length (desc : RenderDescriptorSetDesc)
    (ops : List (Nat × SetCall)) :
    (runSetCalls desc ops).resourceEntries.length = flatDescriptorCount desc := by
  suffices h : ∀ st, (ops.foldl (fun st op => runSetCall desc st op.1 op.2) st).resourceEntries.length
      = st.resourceEntries.length by
    simpa [runSetCalls, initDescriptorSet, flatDescriptorCount] using
      h (initDescriptorSet desc)
  induction ops with
  | nil => intro st; rfl
  | cons op rest ih =>
      intro st
      simpa [runSetCall_length] using (ih (runSetCall desc st op.1 op.2)).trans
        (runSetCall_length desc st op.1 op.2)

/-- C5: after any sequence of setBuffer / setTexture / setSampler calls
(null resources included) on a fresh descriptor set, the CPU-side resource
table has exactly one entry per flat descriptor index of the layout; and
extending the sequence with a null-resource call at an in-range index
leaves that index holding a null resource reference. -/
theorem claim5_resource_table (desc : RenderDescriptorSetDesc)
    (ops : List (Nat × SetCall)) (i : Nat) (c : SetCall)
    (hnull : isNullCall c = true) (hi : i < flatDescriptorCount desc) :
    (runSetCalls desc ops).resourceEntries.length = flatDescriptorCount desc ∧
    ((runSetCalls desc (ops ++ [(i, c)])).resourceEntries[i]?).map
        (fun e => e.resource) = some none := by
  refine ⟨runSetCalls_length desc ops, ?_⟩
  have hsplit : runSetCalls desc (ops ++ [(i, c)]) =
      runSetCall desc (runSetCalls desc ops) i c := by
    simp [runSetCalls, List.foldl_append]
  rw [hsplit]
  have hlen : (runSetCalls desc ops).resourceEntries.length = flatDescriptorCount desc :=
    runSetCalls_length desc ops
  have hres : ∀ st : DescriptorSetState, i < st.resourceEntries.length →
      ((runSetCall desc st i c).resourceEntries[i]?).map (fun e => e.resource) =
        some none := by
    intro st hst
    have hset : ∀ r : Option RenderDescriptorRangeType,
        ((st.resourceEntries.set i { resource := none, rtype := r })[i]?).map
          (fun e => e.resource) = some none := by
      intro r
      rw [List.getElem?_set_self (by simpa using hst)]
      rfl
    cases c with
    | setBuffer b sv fv =>
        cases b with
        | none => simpa [runSetCall, setDescriptor] using hset _
        | some bb => simp [isNullCall] at hnull
    | setTexture t tv =>
        cases t with
        | none => simpa [runSetCall, setDescriptor] using hset _
        | some tt => simp [isNullCall] at hnull
    | setSampler s =>
        cases s with
        | none => simpa [runSetCall, setDescriptor] using hset _
        | some ss => simp [isNullCall] at hnull
  exact hres (runSetCalls desc ops) (by rw [hlen]; exact hi)

/-- C5 witness: on a layout with a single texture range of count 2, binding
a texture at flat index 0 and then a null texture at flat index 0 leaves a
table of two entries whose slot 0 holds a null resource. -/
theorem claim5_witness :
    isNullCall (SetCall.setTexture none none) = true ∧
    0 < flatDescriptorCount
        { descriptorRanges := [{ binding := 0, count := 2, rangeType := .TEXTURE }]
          lastRangeIsBoundless := false, boundlessRangeSize := 0 } ∧
    (runSetCalls
        { descriptorRanges := [{ binding := 0, count := 2, rangeType := .TEXTURE }]
          lastRangeIsBoundless := false, boundlessRangeSize := 0 }
        [(0, SetCall.setTexture (some 5) none)]).resourceEntries.length = 2 ∧
    ((runSetCalls
        { descriptorRanges := [{ binding := 0, count := 2, rangeType := .TEXTURE }]
          lastRangeIsBoundless := false, boundlessRangeSize := 0 }
        ([(0, SetCall.setTexture (some 5) none)] ++
          [(0, SetCall.setTexture none none)])).resourceEntries[0]?).map
        (fun e => e.resource) = some none :=
  ⟨by decide, by decide,
   (claim5_resource_table
      { descriptorRanges := [{ binding := 0, count := 2, rangeType := .TEXTURE }]
        lastRangeIsBoundless := false, boundlessRangeSize := 0 }
      [(0, SetCall.setTexture (some 5) none)] 0 (SetCall.setTexture none none)
      (by decide) (by decide)).1,
   (claim5_resource_table
      { descriptorRanges := [{ binding := 0, count := 2, rangeType := .TEXTURE }]
        lastRangeIsBoundless := false, boundlessRangeSize := 0 }
      [(0, SetCall.setTexture (some 5) none)] 0 (SetCall.setTexture none none)
      (by decide) (by decide)).2⟩

@[simp] theorem flushGraphicsPipeline_renderOpen (s : CommandListState) :
    (flushGraphicsPipeline s).renderEncoderOpen = s.renderEncoderOpen := by
  unfold flushGraphicsPipeline; split <;> (try split) <;> rfl

@[simp] theorem flushGraphicsPipeline_computeOpen (s : CommandListState) :
    (flushGraphicsPipeline s).computeEncoderOpen = s.computeEncoderOpen := by
  unfold flushGraphicsPipeline; split <;> (try split) <;> rfl

@[simp] theorem flushGraphicsPipeline_blitOpen (s : CommandListState) :
    (flushGraphicsPipeline s).blitEncoderOpen = s.blitEncoderOpen := by
  unfold flushGraphicsPipeline; split <;> (try split) <;> rfl

@[simp] theorem flushGraphicsPipeline_resolveOpen (s : CommandListState) :
    (flushGraphicsPipeline s).resolveEncoderOpen = s.resolveEncoderOpen := by
  unfold flushGraphicsPipeline; split <;> (try split) <;> rfl

@[simp] theorem flushGraphicsPipeline_activeType (s : CommandListState) :
    (flushGraphicsPipeline s).activeType = s.activeType := by
  unfold flushGraphicsPipeline; split <;> (try split) <;> rfl

@[simp] theorem flushGraphicsPipeline_pendingClears (s : CommandListState) :
    (flushGraphicsPipeline s).pendingClears = s.pendingClears := by
  unfold flushGraphicsPipeline; split <;> (try split) <;> rfl

@[simp] theorem flushGraphicsPipeline_events (s : CommandListState) :
    (flushGraphicsPipeline s).events = s.events := by
  unfold flushGraphicsPipeline; split <;> (try split) <;> rfl

@[simp] theorem flushGraphicsPipeline_viewportVector (s : CommandListState) :
    (flushGraphicsPipeline s).viewportVector = s.viewportVector := by
  unfold flushGraphicsPipeline; split <;> (try split) <;> rfl

@[simp] theorem flushGraphicsPipeline_scissorVector (s : CommandListState) :
    (flushGraphicsPipeline s).scissorVector = s.scissorVector := by
  unfold flushGraphicsPipeline; split <;> (try split) <;> rfl

@[simp] theorem flushGraphicsViewports_renderOpen (s : CommandListState) :
    (flushGraphicsViewports s).renderEncoderOpen = s.renderEncoderOpen := by
  unfold flushGraphicsViewports; split <;> rfl

@[simp] theorem flushGraphicsViewports_computeOpen (s : CommandListState) :
    (flushGraphicsViewports s).computeEncoderOpen = s.computeEncoderOpen := by
  unfold flushGraphicsViewports; split <;> rfl

@[simp] theorem flushGraphicsViewports_blitOpen (s : CommandListState) :
    (flushGraphicsViewports s).blitEncoderOpen = s.blitEncoderOpen := by
  unfold flushGraphicsViewports; split <;> rfl

@[simp] theorem flushGraphicsViewports_resolveOpen (s : CommandListState) :
    (flushGraphicsViewports s).resolveEncoderOpen = s.resolveEncoderOpen := by
  unfold flushGraphicsViewports; split <;> rfl

@[simp] theorem flushGraphicsViewports_activeType (s : CommandListState) :
    (flushGraphicsViewports s).activeType = s.activeType := by
  unfold flushGraphicsViewports; split <;> rfl

@[simp] theorem flushGraphicsViewports_pendingClears (s : CommandListState) :
    (flushGraphicsViewports s).pendingClears = s.pendingClears := by
  unfold flushGraphicsViewports; split <;> rfl

@[simp] theorem flushGraphicsViewports_events (s : CommandListState) :
    (flushGraphicsViewports s).events = s.events := by
  unfold flushGraphicsViewports; split <;> rfl

@[simp] theorem flushGraphicsViewports_viewportVector (s : CommandListState) :
    (flushGraphicsViewports s).viewportVector = s.viewportVector := by
  unfold flushGraphicsViewports; split <;> rfl

@[simp] theorem flushGraphicsViewports_scissorVector (s : CommandListState) :
    (flushGraphicsViewports s).scissorVector = s.scissorVector := by
  unfold flushGraphicsViewports; split <;> rfl

@[simp] theorem flushGraphicsDepthBias_renderOpen (s : CommandListState) :
    (flushGraphicsDepthBias s).renderEncoderOpen = s.renderEncoderOpen := by
  unfold flushGraphicsDepthBias; split <;> rfl

@[simp] theorem flushGraphicsDepthBias_computeOpen (s : CommandListState) :
    (flushGraphicsDepthBias s).computeEncoderOpen = s.computeEncoderOpen := by
  unfold flushGraphicsDepthBias; split <;> rfl

@[simp] theorem flushGraphicsDepthBias_blitOpen (s : CommandListState) :
    (flushGraphicsDepthBias s).blitEncoderOpen = s.blitEncoderOpen := by
  unfold flushGraphicsDepthBias; split <;> rfl

@[simp] theorem flushGraphicsDepthBias_resolveOpen (s : CommandListState) :
    (flushGraphicsDepthBias s).resolveEncoderOpen = s.resolveEncoderOpen := by
  unfold flushGraphicsDepthBias; split <;> rfl

@[simp] theorem flushGraphicsDepthBias_activeType (s : CommandListState) :
    (flushGraphicsDepthBias s).activeType = s.activeType := by
  unfold flushGraphicsDepthBias; split <;> rfl

@[simp] theorem flushGraphicsDepthBias_pendingClears (s : CommandListState) :
    (flushGraphicsDepthBias s).pendingClears = s.pendingClears := by
  unfold flushGraphicsDepthBias; split <;> rfl

@[simp] theorem flushGraphicsDepthBias_events (s : CommandListState) :
    (flushGraphicsDepthBias s).events = s.events := by
  unfold flushGraphicsDepthBias; split <;> rfl

@[simp] theorem flushGraphicsDepthBias_viewportVector (s : CommandListState) :
    (flushGraphicsDepthBias s).viewportVector = s.viewportVector := by
  unfold flushGraphicsDepthBias; split <;> rfl

@[simp] theorem flushGraphicsDepthBias_scissorVector (s : CommandListState) :
    (flushGraphicsDepthBias s).scissorVector = s.scissorVector := by
  unfold flushGraphicsDepthBias; split <;> rfl

@[simp] theorem flushGraphicsScissors_renderOpen (s : CommandListState) :
    (flushGraphicsScissors s).renderEncoderOpen = s.renderEncoderOpen := by
  unfold flushGraphicsScissors; split <;> rfl

@[simp] theorem flushGraphicsScissors_computeOpen (s : CommandListState) :
    (flushGraphicsScissors s).computeEncoderOpen = s.computeEncoderOpen := by
  unfold flushGraphicsScissors; split <;> rfl

@[simp] theorem flushGraphicsScissors_blitOpen (s : CommandListState) :
    (flushGraphicsScissors s).blitEncoderOpen = s.blitEncoderOpen := by
  unfold flushGraphicsScissors; split <;> rfl

@[simp] theorem flushGraphicsScissors_resolveOpen (s : CommandListState) :
    (flushGraphicsScissors s).resolveEncoderOpen = s.resolveEncoderOpen := by
  unfold flushGraphicsScissors; split <;> rfl

@[simp] theorem flushGraphicsScissors_activeType (s : CommandListState) :
    (flushGraphicsScissors s).activeType = s.activeType := by
  unfold flushGraphicsScissors; split <;> rfl

@[simp] theorem flushGraphicsScissors_pendingClears (s : CommandListState) :
    (flushGraphicsScissors s).pendingClears = s.pendingClears := by
  unfold flushGraphicsScissors; split <;> rfl

@[simp] theorem flushGraphicsScissors_events (s : CommandListState) :
    (flushGraphicsScissors s).events = s.events := by
  unfold flushGraphicsScissors; split <;> rfl

@[simp] theorem flushGraphicsScissors_viewportVector (s : CommandListState) :
    (flushGraphicsScissors s).viewportVector = s.viewportVector := by
  unfold flushGraphicsScissors; split <;> rfl

@[simp] theorem flushGraphicsScissors_scissorVector (s : CommandListState) :
    (flushGraphicsScissors s).scissorVector = s.scissorVector := by
  unfold flushGraphicsScissors; split <;> rfl

@[simp] theorem flushGraphicsVertexBuffers_renderOpen (s : CommandListState) :
    (flushGraphicsVertexBuffers s).renderEncoderOpen = s.renderEncoderOpen := by
  unfold flushGraphicsVertexBuffers; split <;> rfl

@[simp] theorem flushGraphicsVertexBuffers_computeOpen (s : CommandListState) :
    (flushGraphicsVertexBuffers s).computeEncoderOpen = s.computeEncoderOpen := by
  unfold flushGraphicsVertexBuffers; split <;> rfl

@[simp] theorem flushGraphicsVertexBuffers_blitOpen (s : CommandListState) :
    (flushGraphicsVertexBuffers s).blitEncoderOpen = s.blitEncoderOpen := by
  unfold flushGraphicsVertexBuffers; split <;> rfl

@[simp] theorem flushGraphicsVertexBuffers_resolveOpen (s : CommandListState) :
    (flushGraphicsVertexBuffers s).resolveEncoderOpen = s.resolveEncoderOpen := by
  unfold flushGraphicsVertexBuffers; split <;> rfl

@[simp] theorem flushGraphicsVertexBuffers_activeType (s : CommandListState) :
    (flushGraphicsVertexBuffers s).activeType = s.activeType := by
  unfold flushGraphicsVertexBuffers; split <;> rfl

@[simp] theorem flushGraphicsVertexBuffers_pendingClears (s : CommandListState) :
    (flushGraphicsVertexBuffers s).pendingClears = s.pendingClears := by
  unfold flushGraphicsVertexBuffers; split <;> rfl

@[simp] theorem flushGraphicsVertexBuffers_events (s : CommandListState) :
    (flushGraphicsVertexBuffers s).events = s.events := by
  unfold flushGraphicsVertexBuffers; split <;> rfl

@[simp] theorem flushGraphicsVertexBuffers_viewportVector (s : CommandListState) :
    (flushGraphicsVertexBuffers s).viewportVector = s.viewportVector := by
  unfold flushGraphicsVertexBuffers; split <;> rfl

@[simp] theorem flushGraphicsVertexBuffers_scissorVector (s : CommandListState) :
    (flushGraphicsVertexBuffers s).scissorVector = s.scissorVector := by
  unfold flushGraphicsVertexBuffers; split <;> rfl

@[simp] theorem flushGraphicsDescriptorSets_renderOpen (s : CommandListState) :
    (flushGraphicsDescriptorSets s).renderEncoderOpen = s.renderEncoderOpen := by
  unfold flushGraphicsDescriptorSets; split <;> rfl

@[simp] theorem flushGraphicsDescriptorSets_computeOpen (s : CommandListState) :
    (flushGraphicsDescriptorSets s).computeEncoderOpen = s.computeEncoderOpen := by
  unfold flushGraphicsDescriptorSets; split <;> rfl

@[simp] theorem flushGraphicsDescriptorSets_blitOpen (s : CommandListState) :
    (flushGraphicsDescriptorSets s).blitEncoderOpen = s.blitEncoderOpen := by
  unfold flushGraphicsDescriptorSets; split <;> rfl

@[simp] theorem flushGraphicsDescriptorSets_resolveOpen (s : CommandListState) :
    (flushGraphicsDescriptorSets s).resolveEncoderOpen = s.resolveEncoderOpen := by
  unfold flushGraphicsDescriptorSets; split <;> rfl

@[simp] theorem flushGraphicsDescriptorSets_activeType (s : CommandListState) :
    (flushGraphicsDescriptorSets s).activeType = s.activeType := by
  unfold flushGraphicsDescriptorSets; split <;> rfl

@[simp] theorem flushGraphicsDescriptorSets_pendingClears (s : CommandListState) :
    (flushGraphicsDescriptorSets s).pendingClears = s.pendingClears := by
  unfold flushGraphicsDescriptorSets; split <;> rfl

@[simp] theorem flushGraphicsDescriptorSets_events (s : CommandListState) :
    (flushGraphicsDescriptorSets s).events = s.events := by
  unfold flushGraphicsDescriptorSets; split <;> rfl

@[simp] theorem flushGraphicsDescriptorSets_viewportVector (s : CommandListState) :
    (flushGraphicsDescriptorSets s).viewportVector = s.viewportVector := by
  unfold flushGraphicsDescriptorSets; split <;> rfl

@[simp] theorem flushGraphicsDescriptorSets_scissorVector (s : CommandListState) :
    (flushGraphicsDescriptorSets s).scissorVector = s.scissorVector := by
  unfold flushGraphicsDescriptorSets; split <;> rfl

@[simp] theorem flushGraphicsPushConstants_renderOpen (s : CommandListState) :
    (flushGraphicsPushConstants s).renderEncoderOpen = s.renderEncoderOpen := by
  unfold flushGraphicsPushConstants; split <;> rfl

@[simp] theorem flushGraphicsPushConstants_computeOpen (s : CommandListState) :
    (flushGraphicsPushConstants s).computeEncoderOpen = s.computeEncoderOpen := by
  unfold flushGraphicsPushConstants; split <;> rfl

@[simp] theorem flushGraphicsPushConstants_blitOpen (s : CommandListState) :
    (flushGraphicsPushConstants s).blitEncoderOpen = s.blitEncoderOpen := by
  unfold flushGraphicsPushConstants; split <;> rfl

@[simp] theorem flushGraphicsPushConstants_resolveOpen (s : CommandListState) :
    (flushGraphicsPushConstants s).resolveEncoderOpen = s.resolveEncoderOpen := by
  unfold flushGraphicsPushConstants; split <;> rfl

@[simp] theorem flushGraphicsPushConstants_activeType (s : CommandListState) :
    (flushGraphicsPushConstants s).activeType = s.activeType := by
  unfold flushGraphicsPushConstants; split <;> rfl

@[simp] theorem flushGraphicsPushConstants_pendingClears (s : CommandListState) :
    (flushGraphicsPushConstants s).pendingClears = s.pendingClears := by
  unfold flushGraphicsPushConstants; split <;> rfl

@[simp] theorem flushGraphicsPushConstants_events (s : CommandListState) :
    (flushGraphicsPushConstants s).events = s.events := by
  unfold flushGraphicsPushConstants; split <;> rfl

@[simp] theorem flushGraphicsPushConstants_viewportVector (s : CommandListState) :
    (flushGraphicsPushConstants s).viewportVector = s.viewportVector := by
  unfold flushGraphicsPushConstants; split <;> rfl

@[simp] theorem flushGraphicsPushConstants_scissorVector (s : CommandListState) :
    (flushGraphicsPushConstants s).scissorVector = s.scissorVector := by
  unfold flushGraphicsPushConstants; split <;> rfl

theorem openEncoderCount_le_one (s : CommandListState)
    (h : EncoderConsistent s) : openEncoderCount s ≤ 1 := by
  obtain ⟨h1, h2, h3, h4⟩ := h
  unfold openEncoderCount
  cases hr : s.renderEncoderOpen <;> cases hc : s.computeEncoderOpen <;>
    cases hb : s.blitEncoderOpen <;> cases hs : s.resolveEncoderOpen <;>
    simp_all

theorem endActiveRenderEncoder_consistent (s : CommandListState)
    (h : EncoderConsistent s) : EncoderConsistent (endActiveRenderEncoder s) := by
  obtain ⟨h1, h2, h3, h4⟩ := h
  unfold endActiveRenderEncoder EncoderConsistent
  split <;> simp_all

theorem endActiveComputeEncoder_consistent (s : CommandListState)
    (h : EncoderConsistent s) : EncoderConsistent (endActiveComputeEncoder s) := by
  obtain ⟨h1, h2, h3, h4⟩ := h
  unfold endActiveComputeEncoder EncoderConsistent
  split <;> simp_all

theorem endActiveBlitEncoder_consistent (s : CommandListState)
    (h : EncoderConsistent s) : EncoderConsistent (endActiveBlitEncoder s) := by
  obtain ⟨h1, h2, h3, h4⟩ := h
  unfold endActiveBlitEncoder EncoderConsistent
  split <;> simp_all

theorem endActiveResolveTextureComputeEncoder_consistent (s : CommandListState)
    (h : EncoderConsistent s) :
    EncoderConsistent (endActiveResolveTextureComputeEncoder s) := by
  obtain ⟨h1, h2, h3, h4⟩ := h
  unfold endActiveResolveTextureComputeEncoder EncoderConsistent
  split <;> simp_all

theorem endOtherEncoders_consistent (t : EncoderType) (s : CommandListState)
    (h : EncoderConsistent s) : EncoderConsistent (endOtherEncoders t s) := by
  unfold endOtherEncoders
  split
  · exact h
  · split
    · exact h
    · exact endActiveRenderEncoder_consistent s h
    · exact endActiveComputeEncoder_consistent s h
    · exact endActiveBlitEncoder_consistent s h
    · exact endActiveResolveTextureComputeEncoder_consistent s h

@[simp] theorem endActiveRenderEncoder_renderOpen (s : CommandListState) :
    (endActiveRenderEncoder s).renderEncoderOpen = false := by
  unfold endActiveRenderEncoder; split <;> simp_all

@[simp] theorem endActiveRenderEncoder_computeOpen (s : CommandListState) :
    (endActiveRenderEncoder s).computeEncoderOpen = s.computeEncoderOpen := by
  unfold endActiveRenderEncoder; split <;> rfl

@[simp] theorem endActiveRenderEncoder_blitOpen (s : CommandListState) :
    (endActiveRenderEncoder s).blitEncoderOpen = s.blitEncoderOpen := by
  unfold endActiveRenderEncoder; split <;> rfl

@[simp] theorem endActiveRenderEncoder_resolveOpen (s : CommandListState) :
    (endActiveRenderEncoder s).resolveEncoderOpen = s.resolveEncoderOpen := by
  unfold endActiveRenderEncoder; split <;> rfl

@[simp] theorem endActiveRenderEncoder_activeType (s : CommandListState) :
    (endActiveRenderEncoder s).activeType = s.activeType := by
  unfold endActiveRenderEncoder; split <;> rfl

@[simp] theorem endActiveRenderEncoder_pendingClears (s : CommandListState) :
    (endActiveRenderEncoder s).pendingClears = s.pendingClears := by
  unfold endActiveRenderEncoder; split <;> rfl

@[simp] theorem endActiveRenderEncoder_targetFramebuffer (s : CommandListState) :
    (endActiveRenderEncoder s).targetFramebuffer = s.targetFramebuffer := by
  unfold endActiveRenderEncoder; split <;> rfl

@[simp] theorem endActiveComputeEncoder_computeOpen (s : CommandListState) :
    (endActiveComputeEncoder s).computeEncoderOpen = false := by
  unfold endActiveComputeEncoder; split <;> simp_all

@[simp] theorem endActiveComputeEncoder_renderOpen (s : CommandListState) :
    (endActiveComputeEncoder s).renderEncoderOpen = s.renderEncoderOpen := by
  unfold endActiveComputeEncoder; split <;> rfl

@[simp] theorem endActiveComputeEncoder_blitOpen (s : CommandListState) :
    (endActiveComputeEncoder s).blitEncoderOpen = s.blitEncoderOpen := by
  unfold endActiveComputeEncoder; split <;> rfl

@[simp] theorem endActiveComputeEncoder_resolveOpen (s : CommandListState) :
    (endActiveComputeEncoder s).resolveEncoderOpen = s.resolveEncoderOpen := by
  unfold endActiveComputeEncoder; split <;> rfl

@[simp] theorem endActiveComputeEncoder_activeType (s : CommandListState) :
    (endActiveComputeEncoder s).activeType = s.activeType := by
  unfold endActiveComputeEncoder; split <;> rfl

@[simp] theorem endActiveComputeEncoder_pendingClears (s : CommandListState) :
    (endActiveComputeEncoder s).pendingClears = s.pendingClears := by
  unfold endActiveComputeEncoder; split <;> rfl

@[simp] theorem endActiveComputeEncoder_targetFramebuffer (s : CommandListState) :
    (endActiveComputeEncoder s).targetFramebuffer = s.targetFramebuffer := by
  unfold endActiveComputeEncoder; split <;> rfl

@[simp] theorem endActiveBlitEncoder_blitOpen (s : CommandListState) :
    (endActiveBlitEncoder s).blitEncoderOpen = false := by
  unfold endActiveBlitEncoder; split <;> simp_all

@[simp] theorem endActiveBlitEncoder_renderOpen (s : CommandListState) :
    (endActiveBlitEncoder s).renderEncoderOpen = s.renderEncoderOpen := by
  unfold endActiveBlitEncoder; split <;> rfl

@[simp] theorem endActiveBlitEncoder_computeOpen (s : CommandListState) :
    (endActiveBlitEncoder s).computeEncoderOpen = s.computeEncoderOpen := by
  unfold endActiveBlitEncoder; split <;> rfl

@[simp] theorem endActiveBlitEncoder_resolveOpen (s : CommandListState) :
    (endActiveBlitEncoder s).resolveEncoderOpen = s.resolveEncoderOpen := by
  unfold endActiveBlitEncoder; split <;> rfl

@[simp] theorem endActiveBlitEncoder_activeType (s : CommandListState) :
    (endActiveBlitEncoder s).activeType = s.activeType := by
  unfold endActiveBlitEncoder; split <;> rfl

@[simp] theorem endActiveBlitEncoder_pendingClears (s : CommandListState) :
    (endActiveBlitEncoder s).pendingClears = s.pendingClears := by
  unfold endActiveBlitEncoder; split <;> rfl

@[simp] theorem endActiveBlitEncoder_targetFramebuffer (s : CommandListState) :
    (endActiveBlitEncoder s).targetFramebuffer = s.targetFramebuffer := by
  unfold endActiveBlitEncoder; split <;> rfl

@[simp] theorem endActiveResolveEncoder_resolveOpen (s : CommandListState) :
    (endActiveResolveTextureComputeEncoder s).resolveEncoderOpen = false := by
  unfold endActiveResolveTextureComputeEncoder; split <;> simp_all

@[simp] theorem endActiveResolveEncoder_renderOpen (s : CommandListState) :
    (endActiveResolveTextureComputeEncoder s).renderEncoderOpen = s.renderEncoderOpen := by
  unfold endActiveResolveTextureComputeEncoder; split <;> rfl

@[simp] theorem endActiveResolveEncoder_computeOpen (s : CommandListState) :
    (endActiveResolveTextureComputeEncoder s).computeEncoderOpen = s.computeEncoderOpen := by
  unfold endActiveResolveTextureComputeEncoder; split <;> rfl

@[simp] theorem endActiveResolveEncoder_blitOpen (s : CommandListState) :
    (endActiveResolveTextureComputeEncoder s).blitEncoderOpen = s.blitEncoderOpen := by
  unfold endActiveResolveTextureComputeEncoder; split <;> rfl

@[simp] theorem endActiveResolveEncoder_activeType (s : CommandListState) :
    (endActiveResolveTextureComputeEncoder s).activeType = s.activeType := by
  unfold endActiveResolveTextureComputeEncoder; split <;> rfl

@[simp] theorem endActiveResolveEncoder_pendingClears (s : CommandListState) :
    (endActiveResolveTextureComputeEncoder s).pendingClears = s.pendingClears := by
  unfold endActiveResolveTextureComputeEncoder; split <;> rfl

@[simp] theorem endActiveResolveEncoder_targetFramebuffer (s : CommandListState) :
    (endActiveResolveTextureComputeEncoder s).targetFramebuffer = s.targetFramebuffer := by
  unfold endActiveResolveTextureComputeEncoder; split <;> rfl

@[simp] theorem endOtherEncoders_activeType (t : EncoderType) (s : CommandListState) :
    (endOtherEncoders t s).activeType = s.activeType := by
  unfold endOtherEncoders; split
  · rfl
  · split <;> simp

@[simp] theorem endOtherEncoders_pendingClears (t : EncoderType) (s : CommandListState) :
    (endOtherEncoders t s).pendingClears = s.pendingClears := by
  unfold endOtherEncoders; split
  · rfl
  · split <;> simp

@[simp] theorem endOtherEncoders_targetFramebuffer (t : EncoderType) (s : CommandListState) :
    (endOtherEncoders t s).targetFramebuffer = s.targetFramebuffer := by
  unfold endOtherEncoders; split
  · rfl
  · split <;> simp

/-- endOtherEncoders never closes the encoder of the requested kind. -/
theorem endOtherEncoders_render_self (s : CommandListState) :
    (endOtherEncoders .Render s).renderEncoderOpen = s.renderEncoderOpen := by
  unfold endOtherEncoders; split
  · rfl
  · split <;> simp_all

theorem endOtherEncoders_compute_self (s : CommandListState) :
    (endOtherEncoders .Compute s).computeEncoderOpen = s.computeEncoderOpen := by
  unfold endOtherEncoders; split
  · rfl
  · split <;> simp_all

theorem endOtherEncoders_blit_self (s : CommandListState) :
    (endOtherEncoders .Blit s).blitEncoderOpen = s.blitEncoderOpen := by
  unfold endOtherEncoders; split
  · rfl
  · split <;> simp_all

theorem endOtherEncoders_resolve_self (s : CommandListState) :
    (endOtherEncoders .Resolve s).resolveEncoderOpen = s.resolveEncoderOpen := by
  unfold endOtherEncoders; split
  · rfl
  · split <;> simp_all

theorem endOtherEncoders_render_closed (t : EncoderType) (s : CommandListState)
    (h : EncoderConsistent s) (ht : t ≠ EncoderType.Render) :
    (endOtherEncoders t s).renderEncoderOpen = false := by
  obtain ⟨h1, h2, h3, h4⟩ := h
  unfold endOtherEncoders
  split
  · rename_i hat
    cases hro : s.renderEncoderOpen
    · rfl
    · exact absurd (hat.symm.trans (h1 hro)) ht
  · split <;> simp_all

theorem endOtherEncoders_compute_closed (t : EncoderType) (s : CommandListState)
    (h : EncoderConsistent s) (ht : t ≠ EncoderType.Compute) :
    (endOtherEncoders t s).computeEncoderOpen = false := by
  obtain ⟨h1, h2, h3, h4⟩ := h
  unfold endOtherEncoders
  split
  · rename_i hat
    cases hco : s.computeEncoderOpen
    · rfl
    · exact absurd (hat.symm.trans (h2 hco)) ht
  · split <;> simp_all

theorem endOtherEncoders_blit_closed (t : EncoderType) (s : CommandListState)
    (h : EncoderConsistent s) (ht : t ≠ EncoderType.Blit) :
    (endOtherEncoders t s).blitEncoderOpen = false := by
  obtain ⟨h1, h2, h3, h4⟩ := h
  unfold endOtherEncoders
  split
  · rename_i hat
    cases hbo : s.blitEncoderOpen
    · rfl
    · exact absurd (hat.symm.trans (h3 hbo)) ht
  · split <;> simp_all

theorem endOtherEncoders_resolve_closed (t : EncoderType) (s : CommandListState)
    (h : EncoderConsistent s) (ht : t ≠ EncoderType.Resolve) :
    (endOtherEncoders t s).resolveEncoderOpen = false := by
  obtain ⟨h1, h2, h3, h4⟩ := h
  unfold endOtherEncoders
  split
  · rename_i hat
    cases hso : s.resolveEncoderOpen
    · rfl
    · exact absurd (hat.symm.trans (h4 hso)) ht
  · split <;> simp_all

theorem endOtherEncoders_render_stays_closed (t : EncoderType) (s : CommandListState)
    (h0 : s.renderEncoderOpen = false) :
    (endOtherEncoders t s).renderEncoderOpen = false := by
  unfold endOtherEncoders
  split
  · exact h0
  · split <;> simp_all

theorem endOtherEncoders_compute_stays_closed (t : EncoderType) (s : CommandListState)
    (h0 : s.computeEncoderOpen = false) :
    (endOtherEncoders t s).computeEncoderOpen = false := by
  unfold endOtherEncoders
  split
  · exact h0
  · split <;> simp_all

theorem endOtherEncoders_blit_stays_closed (t : EncoderType) (s : CommandListState)
    (h0 : s.blitEncoderOpen = false) :
    (endOtherEncoders t s).blitEncoderOpen = false := by
  unfold endOtherEncoders
  split
  · exact h0
  · split <;> simp_all

theorem endOtherEncoders_resolve_stays_closed (t : EncoderType) (s : CommandListState)
    (h0 : s.resolveEncoderOpen = false) :
    (endOtherEncoders t s).resolveEncoderOpen = false := by
  unfold endOtherEncoders
  split
  · exact h0
  · split <;> simp_all

theorem checkActiveRenderEncoder_post (s : CommandListState) (h : EncoderConsistent s) :
    (checkActiveRenderEncoder s).activeType = .Render ∧
    (checkActiveRenderEncoder s).renderEncoderOpen = true ∧
    (checkActiveRenderEncoder s).computeEncoderOpen = false ∧
    (checkActiveRenderEncoder s).blitEncoderOpen = false ∧
    (checkActiveRenderEncoder s).resolveEncoderOpen = false := by
  have hc := endOtherEncoders_compute_closed .Render s h (by decide)
  have hb := endOtherEncoders_blit_closed .Render s h (by decide)
  have hs := endOtherEncoders_resolve_closed .Render s h (by decide)
  by_cases hpa : (endOtherEncoders .Render s).pendingClears.active = true <;>
    by_cases hro : (endOtherEncoders .Render s).renderEncoderOpen = true <;>
    simp_all [checkActiveRenderEncoder]

theorem checkActiveRenderEncoder_consistent (s : CommandListState)
    (h : EncoderConsistent s) : EncoderConsistent (checkActiveRenderEncoder s) := by
  obtain ⟨ha, hr, hc, hb, hs⟩ := checkActiveRenderEncoder_post s h
  exact ⟨fun _ => ha, fun hx => by simp [hc] at hx, fun hx => by simp [hb] at hx,
    fun hx => by simp [hs] at hx⟩

theorem checkActiveRenderEncoder_pending_inactive (s : CommandListState)
    (hpa : s.pendingClears.active = true) :
    (checkActiveRenderEncoder s).pendingClears.active = false := by
  by_cases hro : (endOtherEncoders .Render s).renderEncoderOpen = true <;>
    simp_all [checkActiveRenderEncoder]

theorem checkActiveRenderEncoder_compute_stays_closed (s : CommandListState)
    (h0 : s.computeEncoderOpen = false) :
    (checkActiveRenderEncoder s).computeEncoderOpen = false := by
  have h1 := endOtherEncoders_compute_stays_closed .Render s h0
  by_cases hpa : (endOtherEncoders .Render s).pendingClears.active = true <;>
    by_cases hro : (endOtherEncoders .Render s).renderEncoderOpen = true <;>
    simp_all [checkActiveRenderEncoder]

theorem checkActiveRenderEncoder_blit_stays_closed (s : CommandListState)
    (h0 : s.blitEncoderOpen = false) :
    (checkActiveRenderEncoder s).blitEncoderOpen = false := by
  have h1 := endOtherEncoders_blit_stays_closed .Render s h0
  by_cases hpa : (endOtherEncoders .Render s).pendingClears.active = true <;>
    by_cases hro : (endOtherEncoders .Render s).renderEncoderOpen = true <;>
    simp_all [checkActiveRenderEncoder]

theorem checkActiveRenderEncoder_resolve_stays_closed (s : CommandListState)
    (h0 : s.resolveEncoderOpen = false) :
    (checkActiveRenderEncoder s).resolveEncoderOpen = false := by
  have h1 := endOtherEncoders_resolve_stays_closed .Render s h0
  by_cases hpa : (endOtherEncoders .Render s).pendingClears.active = true <;>
    by_cases hro : (endOtherEncoders .Render s).renderEncoderOpen = true <;>
    simp_all [checkActiveRenderEncoder]

theorem handlePendingClears_consistent (s : CommandListState)
    (h : EncoderConsistent s) : EncoderConsistent (handlePendingClears s) := by
  unfold handlePendingClears
  split
  · exact endActiveRenderEncoder_consistent _ (checkActiveRenderEncoder_consistent s h)
  · exact h

theorem handlePendingClears_active (s : CommandListState) :
    (handlePendingClears s).pendingClears.active = false := by
  unfold handlePendingClears
  split
  · rename_i hpa
    rw [endActiveRenderEncoder_pendingClears]
    exact checkActiveRenderEncoder_pending_inactive s hpa
  · rename_i hpa
    simpa using hpa

theorem handlePendingClears_renderOpen_of_false (s : CommandListState)
    (h0 : s.renderEncoderOpen = false) :
    (handlePendingClears s).renderEncoderOpen = false := by
  unfold handlePendingClears
  split
  · simp
  · exact h0

theorem handlePendingClears_compute_stays_closed (s : CommandListState)
    (h0 : s.computeEncoderOpen = false) :
    (handlePendingClears s).computeEncoderOpen = false := by
  unfold handlePendingClears
  split
  · rw [endActiveRenderEncoder_computeOpen]
    exact checkActiveRenderEncoder_compute_stays_closed s h0
  · exact h0

theorem handlePendingClears_blit_stays_closed (s : CommandListState)
    (h0 : s.blitEncoderOpen = false) :
    (handlePendingClears s).blitEncoderOpen = false := by
  unfold handlePendingClears
  split
  · rw [endActiveRenderEncoder_blitOpen]
    exact checkActiveRenderEncoder_blit_stays_closed s h0
  · exact h0

theorem handlePendingClears_resolve_stays_closed (s : CommandListState)
    (h0 : s.resolveEncoderOpen = false) :
    (handlePendingClears s).resolveEncoderOpen = false := by
  unfold handlePendingClears
  split
  · rw [endActiveRenderEncoder_resolveOpen]
    exact checkActiveRenderEncoder_resolve_stays_closed s h0
  · exact h0

@[simp] theorem flushComputeState_renderOpen (s : CommandListState) :
    (flushComputeState s).renderEncoderOpen = s.renderEncoderOpen := by
  simp only [flushComputeState]; split_ifs <;> rfl

@[simp] theorem flushComputeState_computeOpen (s : CommandListState) :
    (flushComputeState s).computeEncoderOpen = s.computeEncoderOpen := by
  simp only [flushComputeState]; split_ifs <;> rfl

@[simp] theorem flushComputeState_blitOpen (s : CommandListState) :
    (flushComputeState s).blitEncoderOpen = s.blitEncoderOpen := by
  simp only [flushComputeState]; split_ifs <;> rfl

@[simp] theorem flushComputeState_resolveOpen (s : CommandListState) :
    (flushComputeState s).resolveEncoderOpen = s.resolveEncoderOpen := by
  simp only [flushComputeState]; split_ifs <;> rfl

@[simp] theorem flushComputeState_activeType (s : CommandListState) :
    (flushComputeState s).activeType = s.activeType := by
  simp only [flushComputeState]; split_ifs <;> rfl

@[simp] theorem flushComputeState_pendingClears (s : CommandListState) :
    (flushComputeState s).pendingClears = s.pendingClears := by
  simp only [flushComputeState]; split_ifs <;> rfl

@[simp] theorem flushComputeState_events (s : CommandListState) :
    (flushComputeState s).events = s.events := by
  simp only [flushComputeState]; split_ifs <;> rfl

theorem checkActiveComputeEncoder_post (s : CommandListState) (h : EncoderConsistent s) :
    (checkActiveComputeEncoder s).activeType = .Compute ∧
    (checkActiveComputeEncoder s).computeEncoderOpen = true ∧
    (checkActiveComputeEncoder s).renderEncoderOpen = false ∧
    (checkActiveComputeEncoder s).blitEncoderOpen = false ∧
    (checkActiveComputeEncoder s).resolveEncoderOpen = false := by
  have hr := endOtherEncoders_render_closed .Compute s h (by decide)
  have hb := endOtherEncoders_blit_closed .Compute s h (by decide)
  have hs := endOtherEncoders_resolve_closed .Compute s h (by decide)
  by_cases hco : (endOtherEncoders .Compute s).computeEncoderOpen = true <;>
    simp_all [checkActiveComputeEncoder]

theorem checkActiveComputeEncoder_consistent (s : CommandListState)
    (h : EncoderConsistent s) : EncoderConsistent (checkActiveComputeEncoder s) := by
  obtain ⟨ha, hc, hr, hb, hs⟩ := checkActiveComputeEncoder_post s h
  exact ⟨fun hx => by simp [hr] at hx, fun _ => ha, fun hx => by simp [hb] at hx,
    fun hx => by simp [hs] at hx⟩

theorem checkActiveBlitEncoder_post (s : CommandListState) (h : EncoderConsistent s) :
    (checkActiveBlitEncoder s).activeType = .Blit ∧
    (checkActiveBlitEncoder s).blitEncoderOpen = true ∧
    (checkActiveBlitEncoder s).renderEncoderOpen = false ∧
    (checkActiveBlitEncoder s).computeEncoderOpen = false ∧
    (checkActiveBlitEncoder s).resolveEncoderOpen = false := by
  have hr := endOtherEncoders_render_closed .Blit s h (by decide)
  have hc := endOtherEncoders_compute_closed .Blit s h (by decide)
  have hs := endOtherEncoders_resolve_closed .Blit s h (by decide)
  by_cases hbo : (endOtherEncoders .Blit s).blitEncoderOpen = true <;>
    simp_all [checkActiveBlitEncoder]

theorem checkActiveBlitEncoder_consistent (s : CommandListState)
    (h : EncoderConsistent s) : EncoderConsistent (checkActiveBlitEncoder s) := by
  obtain ⟨ha, hb, hr, hc, hs⟩ := checkActiveBlitEncoder_post s h
  exact ⟨fun hx => by simp [hr] at hx, fun hx => by simp [hc] at hx, fun _ => ha,
    fun hx => by simp [hs] at hx⟩

theorem checkActiveResolveEncoder_post (s : CommandListState) (h : EncoderConsistent s) :
    (checkActiveResolveTextureComputeEncoder s).activeType = .Resolve ∧
    (checkActiveResolveTextureComputeEncoder s).resolveEncoderOpen = true ∧
    (checkActiveResolveTextureComputeEncoder s).renderEncoderOpen = false ∧
    (checkActiveResolveTextureComputeEncoder s).computeEncoderOpen = false ∧
    (checkActiveResolveTextureComputeEncoder s).blitEncoderOpen = false := by
  have hr := endOtherEncoders_render_closed .Resolve s h (by decide)
  have hc := endOtherEncoders_compute_closed .Resolve s h (by decide)
  have hb := endOtherEncoders_blit_closed .Resolve s h (by decide)
  by_cases hso : (endOtherEncoders .Resolve s).resolveEncoderOpen = true <;>
    simp_all [checkActiveResolveTextureComputeEncoder]

theorem checkActiveResolveEncoder_consistent (s : CommandListState)
    (h : EncoderConsistent s) :
    EncoderConsistent (checkActiveResolveTextureComputeEncoder s) := by
  obtain ⟨ha, hs, hr, hc, hb⟩ := checkActiveResolveEncoder_post s h
  exact ⟨fun hx => by simp [hr] at hx, fun hx => by simp [hc] at hx,
    fun hx => by simp [hb] at hx, fun _ => ha⟩

@[simp] theorem checkForUpdatesInGraphicsState_renderOpen (s : CommandListState) :
    (checkForUpdatesInGraphicsState s).renderEncoderOpen = s.renderEncoderOpen := by
  simp only [checkForUpdatesInGraphicsState]
  split_ifs <;> simp

@[simp] theorem checkForUpdatesInGraphicsState_computeOpen (s : CommandListState) :
    (checkForUpdatesInGraphicsState s).computeEncoderOpen = s.computeEncoderOpen := by
  simp only [checkForUpdatesInGraphicsState]
  split_ifs <;> simp

@[simp] theorem checkForUpdatesInGraphicsState_blitOpen (s : CommandListState) :
    (checkForUpdatesInGraphicsState s).blitEncoderOpen = s.blitEncoderOpen := by
  simp only [checkForUpdatesInGraphicsState]
  split_ifs <;> simp

@[simp] theorem checkForUpdatesInGraphicsState_resolveOpen (s : CommandListState) :
    (checkForUpdatesInGraphicsState s).resolveEncoderOpen = s.resolveEncoderOpen := by
  simp only [checkForUpdatesInGraphicsState]
  split_ifs <;> simp

@[simp] theorem checkForUpdatesInGraphicsState_activeType (s : CommandListState) :
    (checkForUpdatesInGraphicsState s).activeType = s.activeType := by
  simp only [checkForUpdatesInGraphicsState]
  split_ifs <;> simp

@[simp] theorem checkForUpdatesInGraphicsState_pendingClears (s : CommandListState) :
    (checkForUpdatesInGraphicsState s).pendingClears = s.pendingClears := by
  simp only [checkForUpdatesInGraphicsState]
  split_ifs <;> simp

@[simp] theorem checkForUpdatesInGraphicsState_events (s : CommandListState) :
    (checkForUpdatesInGraphicsState s).events = s.events := by
  simp only [checkForUpdatesInGraphicsState]
  split_ifs <;> simp

theorem checkForUpdatesInGraphicsState_consistent (s : CommandListState)
    (h : EncoderConsistent s) :
    EncoderConsistent (checkForUpdatesInGraphicsState s) := by
  obtain ⟨h1, h2, h3, h4⟩ := h
  refine ⟨?_, ?_, ?_, ?_⟩ <;> simp_all

theorem consistent_of_all_closed (s : CommandListState)
    (h1 : s.renderEncoderOpen = false) (h2 : s.computeEncoderOpen = false)
    (h3 : s.blitEncoderOpen = false) (h4 : s.resolveEncoderOpen = false) :
    EncoderConsistent s :=
  ⟨fun hx => absurd hx (by simp [h1]), fun hx => absurd hx (by simp [h2]),
   fun hx => absurd hx (by simp [h3]), fun hx => absurd hx (by simp [h4])⟩

/-- After endOtherEncoders(Render), endActiveRenderEncoder,
handlePendingClears (the shared teardown prefix of setFramebuffer and
resolveTexture) every encoder is closed. -/
theorem renderTeardown_flags (s : CommandListState) (h : EncoderConsistent s) :
    (handlePendingClears (endActiveRenderEncoder (endOtherEncoders .Render s))).renderEncoderOpen = false ∧
    (handlePendingClears (endActiveRenderEncoder (endOtherEncoders .Render s))).computeEncoderOpen = false ∧
    (handlePendingClears (endActiveRenderEncoder (endOtherEncoders .Render s))).blitEncoderOpen = false ∧
    (handlePendingClears (endActiveRenderEncoder (endOtherEncoders .Render s))).resolveEncoderOpen = false := by
  have hc := endOtherEncoders_compute_closed .Render s h (by decide)
  have hb := endOtherEncoders_blit_closed .Render s h (by decide)
  have hs := endOtherEncoders_resolve_closed .Render s h (by decide)
  refine ⟨handlePendingClears_renderOpen_of_false _ (by simp),
    handlePendingClears_compute_stays_closed _ (by simpa using hc),
    handlePendingClears_blit_stays_closed _ (by simpa using hb),
    handlePendingClears_resolve_stays_closed _ (by simpa using hs)⟩

theorem setFramebufferOp_consistent (fb : Option Nat) (s : CommandListState)
    (h : EncoderConsistent s) : EncoderConsistent (setFramebufferOp fb s) := by
  obtain ⟨g1, g2, g3, g4⟩ := renderTeardown_flags s h
  cases fb <;> exact consistent_of_all_closed _ g1 g2 g3 g4

theorem clearColorOp_consistent (i : Nat) (c : RenderColor) (n : Nat)
    (s : CommandListState) (h : EncoderConsistent s) :
    EncoderConsistent (clearColorOp i c n s) := by
  unfold clearColorOp
  split
  · exact h
  · exact checkActiveRenderEncoder_consistent s h

theorem clearDepthStencilOp_consistent (cd cs : Bool) (d : Int) (stv n : Nat)
    (s : CommandListState) (h : EncoderConsistent s) :
    EncoderConsistent (clearDepthStencilOp cd cs d stv n s) := by
  unfold clearDepthStencilOp
  split
  · split
    · exact h
    · exact checkActiveRenderEncoder_consistent s h
  · exact h

theorem barriersOp_consistent (bc tc : Nat) (s : CommandListState)
    (h : EncoderConsistent s) : EncoderConsistent (barriersOp bc tc s) := by
  unfold barriersOp
  split
  · exact h
  · exact handlePendingClears_consistent _ (endActiveRenderEncoder_consistent s h)

theorem drawInstancedOp_consistent (s : CommandListState)
    (h : EncoderConsistent s) : EncoderConsistent (drawInstancedOp s) :=
  checkForUpdatesInGraphicsState_consistent _ (checkActiveRenderEncoder_consistent s h)

theorem dispatchOp_consistent (s : CommandListState)
    (h : EncoderConsistent s) : EncoderConsistent (dispatchOp s) :=
  checkActiveComputeEncoder_consistent s h

theorem blitCommandOp_consistent (s : CommandListState)
    (h : EncoderConsistent s) : EncoderConsistent (blitCommandOp s) := by
  have h1 := endOtherEncoders_consistent .Blit s h
  obtain ⟨ha, hb2, hr2, hc2, hs2⟩ :=
    checkActiveBlitEncoder_post (endOtherEncoders .Blit s) h1
  exact ⟨fun hx => by simp [blitCommandOp, hr2] at hx,
    fun hx => by simp [blitCommandOp, hc2] at hx,
    fun _ => rfl, fun hx => by simp [blitCommandOp, hs2] at hx⟩

theorem resolveTextureOp_consistent (s : CommandListState)
    (h : EncoderConsistent s) : EncoderConsistent (resolveTextureOp s) := by
  obtain ⟨g1, g2, g3, g4⟩ := renderTeardown_flags s h
  exact consistent_of_all_closed _ g1 g2 g3 g4

theorem resolveTextureRegionOp_consistent (canFull : Bool) (s : CommandListState)
    (h : EncoderConsistent s) :
    EncoderConsistent (resolveTextureRegionOp canFull s) := by
  unfold resolveTextureRegionOp
  split
  · exact resolveTextureOp_consistent s h
  · have h1 := endOtherEncoders_consistent .Resolve s h
    obtain ⟨ha, hs2, hr2, hc2, hb2⟩ :=
      checkActiveResolveEncoder_post (endOtherEncoders .Resolve s) h1
    exact ⟨fun hx => by simp [hr2] at hx, fun hx => by simp [hc2] at hx,
      fun hx => by simp [hb2] at hx, fun _ => rfl⟩

theorem endOp_consistent (s : CommandListState)
    (h : EncoderConsistent s) : EncoderConsistent (endOp s) :=
  endActiveComputeEncoder_consistent _
    (endActiveBlitEncoder_consistent _
      (endActiveResolveTextureComputeEncoder_consistent _
        (handlePendingClears_consistent _
          (endActiveRenderEncoder_consistent s h))))

theorem setGraphicsPipelineLayoutOp_consistent (l : PipelineLayout)
    (s : CommandListState) (h : EncoderConsistent s) :
    EncoderConsistent (setGraphicsPipelineLayoutOp l s) := by
  simp only [setGraphicsPipelineLayoutOp]
  split <;> exact h

theorem setComputePipelineLayoutOp_consistent (l : PipelineLayout)
    (s : CommandListState) (h : EncoderConsistent s) :
    EncoderConsistent (setComputePipelineLayoutOp l s) := by
  simp only [setComputePipelineLayoutOp]
  split <;> exact h

theorem setGraphicsPushConstantsOp_consistent (ri : Nat) (d : List Nat)
    (o sz : Nat) (s : CommandListState) (h : EncoderConsistent s) :
    EncoderConsistent (setGraphicsPushConstantsOp ri d o sz s) := by
  unfold setGraphicsPushConstantsOp
  split <;> exact h

theorem setComputePushConstantsOp_consistent (ri : Nat) (d : List Nat)
    (o sz : Nat) (s : CommandListState) (h : EncoderConsistent s) :
    EncoderConsistent (setComputePushConstantsOp ri d o sz s) := by
  unfold setComputePushConstantsOp
  split <;> exact h

theorem setGraphicsDescriptorSetOp_consistent (ds : Option Nat) (i : Nat)
    (s : CommandListState) (h : EncoderConsistent s) :
    EncoderConsistent (setGraphicsDescriptorSetOp ds i s) := by
  unfold setGraphicsDescriptorSetOp
  split <;> exact h

theorem setComputeDescriptorSetOp_consistent (ds : Option Nat) (i : Nat)
    (s : CommandListState) (h : EncoderConsistent s) :
    EncoderConsistent (setComputeDescriptorSetOp ds i s) := by
  unfold setComputeDescriptorSetOp
  split <;> exact h

theorem stepOp_consistent (s : CommandListState) (op : CmdOp)
    (h : EncoderConsistent s) : EncoderConsistent (stepOp s op) := by
  cases op with
  | setFramebuffer fb => exact setFramebufferOp_consistent fb s h
  | clearColor i c n => exact clearColorOp_consistent i c n s h
  | clearDepthStencil cd cs d stv n => exact clearDepthStencilOp_consistent cd cs d stv n s h
  | barriers bc tc => exact barriersOp_consistent bc tc s h
  | drawInstanced => exact drawInstancedOp_consistent s h
  | drawIndexedInstanced => exact drawInstancedOp_consistent s h
  | dispatch => exact dispatchOp_consistent s h
  | copyBufferRegion => exact blitCommandOp_consistent s h
  | copyTextureRegion => exact blitCommandOp_consistent s h
  | copyBuffer => exact blitCommandOp_consistent s h
  | copyTexture => exact blitCommandOp_consistent s h
  | resolveTexture => exact resolveTextureOp_consistent s h
  | resolveTextureRegion canFull => exact resolveTextureRegionOp_consistent canFull s h
  | setGraphicsPipelineLayout l => exact setGraphicsPipelineLayoutOp_consistent l s h
  | setComputePipelineLayout l => exact setComputePipelineLayoutOp_consistent l s h
  | setGraphicsPushConstants ri d o sz => exact setGraphicsPushConstantsOp_consistent ri d o sz s h
  | setComputePushConstants ri d o sz => exact setComputePushConstantsOp_consistent ri d o sz s h
  | setGraphicsDescriptorSet ds i => exact setGraphicsDescriptorSetOp_consistent ds i s h
  | setComputeDescriptorSet ds i => exact setComputeDescriptorSetOp_consistent ds i s h
  | endRecording => exact endOp_consistent s h

theorem runOps_consistent (ops : List CmdOp) : EncoderConsistent (runOps ops) := by
  suffices hgen : ∀ s, EncoderConsistent s → EncoderConsistent (ops.foldl stepOp s) by
    exact hgen beginState (by decide)
  induction ops with
  | nil => intro s hs; exact hs
  | cons op rest ih =>
      intro s hs
      exact ih (stepOp s op) (stepOp_consistent s op hs)

/-- C1: for every sequence of recorded operations, at most one of the four
native encoders (render, compute, blit, resolve-compute) is open at any
time; and recording a blit operation (copyBufferRegion) while a render
encoder is open first closes the render encoder and then opens the blit
encoder (the trace gains closeRenderEncoder before openBlitEncoder, and
the resulting state has the render encoder closed and the blit encoder
open). -/
theorem claim1_encoder_exclusivity :
    (∀ ops : List CmdOp, openEncoderCount (runOps ops) ≤ 1) ∧
    (∀ s : CommandListState, EncoderConsistent s → s.renderEncoderOpen = true →
      (stepOp s .copyBufferRegion).renderEncoderOpen = false ∧
      (stepOp s .copyBufferRegion).blitEncoderOpen = true ∧
      (stepOp s .copyBufferRegion).events =
        s.events ++ [.closeRenderEncoder, .openBlitEncoder]) := by
  constructor
  · intro ops
    exact openEncoderCount_le_one _ (runOps_consistent ops)
  · intro s h hro
    have hat : s.activeType = .Render := h.1 hro
    have hbo : s.blitEncoderOpen = false := by
      cases hbo : s.blitEncoderOpen
      · rfl
      · have hx := h.2.2.1 hbo
        rw [hat] at hx
        cases hx
    refine ⟨?_, ?_, ?_⟩ <;>
      simp [stepOp, blitCommandOp, checkActiveBlitEncoder, endOtherEncoders,
        endActiveRenderEncoder, hat, hro, hbo]

/-- C1 witness: the exclusivity bound applied to a concrete recording
(draw, then copy, then dispatch), and the blit transition applied to a
concrete state with an open render encoder. -/
theorem claim1_witness :
    openEncoderCount (runOps
      [.setFramebuffer (some 1), .drawInstanced, .copyBufferRegion, .dispatch]) ≤ 1 ∧
    EncoderConsistent renderOpenState ∧
    renderOpenState.renderEncoderOpen = true ∧
    (stepOp renderOpenState .copyBufferRegion).renderEncoderOpen = false ∧
    (stepOp renderOpenState .copyBufferRegion).blitEncoderOpen = true :=
  ⟨claim1_encoder_exclusivity.1
      [.setFramebuffer (some 1), .drawInstanced, .copyBufferRegion, .dispatch],
   by decide, rfl,
   (claim1_encoder_exclusivity.2 renderOpenState (by decide) rfl).1,
   (claim1_encoder_exclusivity.2 renderOpenState (by decide) rfl).2.1⟩

/-- C2: after setFramebuffer on a framebuffer with n color attachments, a
clearColor call with clearRectsCount = 0 at attachment i records a pending
Clear load action together with the clear color and opens no encoder (no
render pass has been opened); a subsequent draw call opens exactly one
render pass, whose load-action list carries Clear at attachment i (and the
recorded clear color there), rather than a separate clear pass followed by
a draw pass. -/
theorem claim2_deferred_clear_coalescing (n i : Nat) (v : RenderColor) (hi : i < n) :
    (runOps [.setFramebuffer (some n), .clearColor i v 0]).renderEncoderOpen = false ∧
    openEncoderCount (runOps [.setFramebuffer (some n), .clearColor i v 0]) = 0 ∧
    (runOps [.setFramebuffer (some n), .clearColor i v 0]).pendingClears.active = true ∧
    (runOps [.setFramebuffer (some n),
      .clearColor i v 0]).pendingClears.initialAction[i]? = some .Clear ∧
    (runOps [.setFramebuffer (some n),
      .clearColor i v 0]).pendingClears.clearValues[i]? = some (.color v) ∧
    ((runOps [.setFramebuffer (some n),
      .clearColor i v 0]).events.countP isRenderPassOpenEvent) = 0 ∧
    (runOps [.setFramebuffer (some n), .clearColor i v 0, .drawInstanced]).events =
      [.openRenderPass ((List.replicate (n + 2) MTLLoadAction.Load).set i .Clear)
        ((List.replicate (n + 2) ClearValue.undef).set i (.color v))] ∧
    ((runOps [.setFramebuffer (some n), .clearColor i v 0,
      .drawInstanced]).events.countP isRenderPassOpenEvent) = 1 ∧
    ((List.replicate (n + 2) MTLLoadAction.Load).set i .Clear)[i]? = some .Clear := by
  have h1 : runOps [.setFramebuffer (some n), .clearColor i v 0] =
      { beginState with
          activeType := .Render
          targetFramebuffer := some n
          dirtyGraphicsState := GraphicsStateFlags.setAllFlags
          pendingClears :=
            { initialAction := (List.replicate (n + 2) MTLLoadAction.Load).set i .Clear
              clearValues := (List.replicate (n + 2) ClearValue.undef).set i (.color v)
              active := true } } := rfl
  have h2 : (runOps [.setFramebuffer (some n), .clearColor i v 0, .drawInstanced]).events =
      [.openRenderPass ((List.replicate (n + 2) MTLLoadAction.Load).set i .Clear)
        ((List.replicate (n + 2) ClearValue.undef).set i (.color v))] := rfl
  have hlen : i < ((List.replicate (n + 2) MTLLoadAction.Load).length) := by
    simp; omega
  have hlenv : i < ((List.replicate (n + 2) ClearValue.undef).length) := by
    simp; omega
  refine ⟨rfl, rfl, rfl, ?_, ?_, rfl, h2, ?_, ?_⟩
  · rw [h1]
    exact List.getElem?_set_self hlen
  · rw [h1]
    exact List.getElem?_set_self hlenv
  · rw [h2]
    simp [isRenderPassOpenEvent]
  · exact List.getElem?_set_self hlen

/-- C2 witness: the coalescing theorem applied at a one-attachment
framebuffer, attachment 0, and a concrete clear color. -/
theorem claim2_witness :
    0 < 1 ∧
    (runOps [.setFramebuffer (some 1),
      .clearColor 0 { r := 1, g := 2, b := 3, a := 4 } 0]).renderEncoderOpen = false ∧
    ((runOps [.setFramebuffer (some 1), .clearColor 0 { r := 1, g := 2, b := 3, a := 4 } 0,
      .drawInstanced]).events.countP isRenderPassOpenEvent) = 1 :=
  ⟨by decide,
   (claim2_deferred_clear_coalescing 1 0 { r := 1, g := 2, b := 3, a := 4 } (by decide)).1,
   (claim2_deferred_clear_coalescing 1 0 { r := 1, g := 2, b := 3, a := 4 }
     (by decide)).2.2.2.2.2.2.2.1⟩

/-- C6 counterexample: a barriers call with zero buffer barriers and zero
texture barriers returns early, so in a state with an open render encoder
(produced by an actual recording) the render encoder is still open after
the call, contradicting the claim that every barriers call closes it. -/
theorem claim6_counterexample :
    (runOps [.setFramebuffer (some 1), .drawInstanced]).renderEncoderOpen = true ∧
    (stepOp (runOps [.setFramebuffer (some 1), .drawInstanced])
      (.barriers 0 0)).renderEncoderOpen = true :=
  ⟨rfl, rfl⟩

/-- C6 (amended): every barriers call with at least one buffer or texture
barrier closes the active render encoder and flushes the pending deferred
clears before returning: afterwards no render encoder is open and no
pending clear remains unapplied.  (A call with zero barriers of both kinds
returns immediately and changes nothing.) -/
theorem claim6_barriers_flush (s : CommandListState) (bc tc : Nat)
    (h : ¬(bc = 0 ∧ tc = 0)) :
    (barriersOp bc tc s).renderEncoderOpen = false ∧
    (barriersOp bc tc s).pendingClears.active = false := by
  unfold barriersOp
  rw [if_neg h]
  exact ⟨handlePendingClears_renderOpen_of_false _ (by simp),
    handlePendingClears_active _⟩

/-- C6 witness: the amended theorem applied to a concrete state with an
open render encoder and one buffer barrier. -/
theorem claim6_witness :
    ¬((1 : Nat) = 0 ∧ (0 : Nat) = 0) ∧
    (barriersOp 1 0 renderOpenState).renderEncoderOpen = false ∧
    (barriersOp 1 0 renderOpenState).pendingClears.active = false :=
  ⟨by decide,
   (claim6_barriers_flush renderOpenState 1 0 (by decide)).1,
   (claim6_barriers_flush renderOpenState 1 0 (by decide)).2⟩

/-- C7 counterexample: after recording compute push constants, a
setGraphicsPipelineLayout call with a new layout clears the shared
push-constant vector, discarding the compute-domain push constants as
well, so the call does not affect only the graphics domain. -/
theorem claim7_counterexample :
    (runOps [.setComputePipelineLayout computeLayoutA,
      .setComputePushConstants 0 [7, 7, 7, 7] 0 0]).pushConstants ≠ [] ∧
    (runOps [.setComputePipelineLayout computeLayoutA,
      .setComputePushConstants 0 [7, 7, 7, 7] 0 0]).activeGraphicsPipelineLayout ≠
        some graphicsLayoutB ∧
    (stepOp (runOps [.setComputePipelineLayout computeLayoutA,
      .setComputePushConstants 0 [7, 7, 7, 7] 0 0])
      (.setGraphicsPipelineLayout graphicsLayoutB)).pushConstants = [] := by
  refine ⟨by decide, by decide, by decide⟩

/-- C7 (amended): setting a pipeline layout different from the active one
for a domain invalidates that domain's bindings: every descriptor-set slot
of the domain becomes null, the shared push-constant ranges (and their
cache) are cleared, and the domain's dirty bits (descriptor sets, push
constants, dirty-set index 0) are set; the other domain's descriptor sets,
pipeline layout and dirty bits are unaffected — but the push-constant
storage is shared between the domains, so its clearing also discards the
other domain's recorded push constants. -/
theorem claim7_pipeline_layout_invalidation :
    (∀ (s : CommandListState) (l : PipelineLayout),
      s.activeGraphicsPipelineLayout ≠ some l →
      (setGraphicsPipelineLayoutOp l s).activeGraphicsPipelineLayout = some l ∧
      (setGraphicsPipelineLayoutOp l s).renderDescriptorSets = List.replicate 8 none ∧
      (setGraphicsPipelineLayoutOp l s).pushConstants = [] ∧
      (setGraphicsPipelineLayoutOp l s).stateCacheLastPushConstants = [] ∧
      (setGraphicsPipelineLayoutOp l s).dirtyGraphicsState.descriptorSets = true ∧
      (setGraphicsPipelineLayoutOp l s).dirtyGraphicsState.pushConstants = true ∧
      (setGraphicsPipelineLayoutOp l s).dirtyGraphicsState.descriptorSetDirtyIndex = 0 ∧
      (setGraphicsPipelineLayoutOp l s).computeDescriptorSets = s.computeDescriptorSets ∧
      (setGraphicsPipelineLayoutOp l s).dirtyComputeState = s.dirtyComputeState ∧
      (setGraphicsPipelineLayoutOp l s).activeComputePipelineLayout =
        s.activeComputePipelineLayout ∧
      (setGraphicsPipelineLayoutOp l s).renderEncoderOpen = s.renderEncoderOpen ∧
      (setGraphicsPipelineLayoutOp l s).events = s.events) ∧
    (∀ (s : CommandListState) (l : PipelineLayout),
      s.activeComputePipelineLayout ≠ some l →
      (setComputePipelineLayoutOp l s).activeComputePipelineLayout = some l ∧
      (setComputePipelineLayoutOp l s).computeDescriptorSets = List.replicate 8 none ∧
      (setComputePipelineLayoutOp l s).pushConstants = [] ∧
      (setComputePipelineLayoutOp l s).stateCacheLastPushConstants = [] ∧
      (setComputePipelineLayoutOp l s).dirtyComputeState.descriptorSets = true ∧
      (setComputePipelineLayoutOp l s).dirtyComputeState.pushConstants = true ∧
      (setComputePipelineLayoutOp l s).dirtyComputeState.descriptorSetDirtyIndex = 0 ∧
      (setComputePipelineLayoutOp l s).renderDescriptorSets = s.renderDescriptorSets ∧
      (setComputePipelineLayoutOp l s).dirtyGraphicsState = s.dirtyGraphicsState ∧
      (setComputePipelineLayoutOp l s).activeGraphicsPipelineLayout =
        s.activeGraphicsPipelineLayout ∧
      (setComputePipelineLayoutOp l s).renderEncoderOpen = s.renderEncoderOpen ∧
      (setComputePipelineLayoutOp l s).events = s.events) := by
  constructor
  · intro s l h
    simp only [setGraphicsPipelineLayoutOp]
    rw [if_pos h]
    exact ⟨rfl, rfl, rfl, rfl, rfl, rfl, rfl, rfl, rfl, rfl, rfl, rfl⟩
  · intro s l h
    simp only [setComputePipelineLayoutOp]
    rw [if_pos h]
    exact ⟨rfl, rfl, rfl, rfl, rfl, rfl, rfl, rfl, rfl, rfl, rfl, rfl⟩

/-- C7 witness: the invalidation theorem applied at the begin state and a
concrete layout, for both domains. -/
theorem claim7_witness :
    beginState.activeGraphicsPipelineLayout ≠ some graphicsLayoutB ∧
    (setGraphicsPipelineLayoutOp graphicsLayoutB beginState).renderDescriptorSets =
      List.replicate 8 none ∧
    beginState.activeComputePipelineLayout ≠ some computeLayoutA ∧
    (setComputePipelineLayoutOp computeLayoutA beginState).computeDescriptorSets =
      List.replicate 8 none :=
  ⟨by decide,
   (claim7_pipeline_layout_invalidation.1 beginState graphicsLayoutB (by decide)).2.1,
   by decide,
   (claim7_pipeline_layout_invalidation.2 beginState computeLayoutA (by decide)).2.1⟩

/-- C9: resize returns false when the queried window width or height is
zero; and when the queried dimensions (both nonzero) equal the native
layer's current drawable size, it performs no update of the native layer
or the drawable ring (no setDrawableSize call) while still returning
true. -/
theorem claim9_resize_zero_and_noop (s : SwapChainState) (w h : Nat) :
    ((w = 0 ∨ h = 0) → (swapChainResize w h s).1 = false) ∧
    (w ≠ 0 → h ≠ 0 → s.layerDrawableWidth = w → s.layerDrawableHeight = h →
      (swapChainResize w h s).1 = true ∧
      (swapChainResize w h s).2.layerDrawableWidth = s.layerDrawableWidth ∧
      (swapChainResize w h s).2.layerDrawableHeight = s.layerDrawableHeight ∧
      (swapChainResize w h s).2.setDrawableSizeCalls = s.setDrawableSizeCalls ∧
      (swapChainResize w h s).2.drawables = s.drawables) := by
  constructor
  · intro hz
    simp only [swapChainResize]
    rw [if_pos hz]
  · intro hw hh hlw hlh
    simp [swapChainResize, hw, hh, hlw, hlh]

/-- C9 witness: the resize theorem applied to a concrete swap chain, once
with a zero height and once with dimensions equal to the layer size. -/
theorem claim9_witness :
    ((8 : Nat) = 0 ∨ (0 : Nat) = 0) ∧
    (swapChainResize 8 0 (initSwapChain 8 6 .B8G8R8A8_UNORM 8 6)).1 = false ∧
    ((8 : Nat) ≠ 0 ∧ (6 : Nat) ≠ 0 ∧
      (initSwapChain 8 6 .B8G8R8A8_UNORM 8 6).layerDrawableWidth = 8 ∧
      (initSwapChain 8 6 .B8G8R8A8_UNORM 8 6).layerDrawableHeight = 6) ∧
    (swapChainResize 8 6 (initSwapChain 8 6 .B8G8R8A8_UNORM 8 6)).1 = true ∧
    (swapChainResize 8 6 (initSwapChain 8 6 .B8G8R8A8_UNORM 8 6)).2.setDrawableSizeCalls =
      (initSwapChain 8 6 .B8G8R8A8_UNORM 8 6).setDrawableSizeCalls :=
  ⟨Or.inr rfl,
   (claim9_resize_zero_and_noop (initSwapChain 8 6 .B8G8R8A8_UNORM 8 6) 8 0).1 (Or.inr rfl),
   ⟨by decide, by decide, rfl, rfl⟩,
   ((claim9_resize_zero_and_noop (initSwapChain 8 6 .B8G8R8A8_UNORM 8 6) 8 6).2
     (by decide) (by decide) rfl rfl).1,
   ((claim9_resize_zero_and_noop (initSwapChain 8 6 .B8G8R8A8_UNORM 8 6) 8 6).2
     (by decide) (by decide) rfl rfl).2.2.2.1⟩

/-- C10: acquireTexture commits the semaphore-signaling command buffer
before querying the layer for a drawable (the commit precedes the query in
the action trace, for success and failure alike); when no drawable is
available it returns false and no texture index, with the drawable ring
and currentAvailableDrawableIndex unchanged, but with the semaphore signal
already committed. -/
theorem claim10_acquire_commits_before_drawable (sem : Nat)
    (nextDrawable : Option (Nat × MTLPixelFormat)) (s : SwapChainState) :
    (acquireTexture sem nextDrawable s).2.2.actions =
      s.actions ++ [.commitSignal sem, .queryNextDrawable] ∧
    (nextDrawable = none →
      (acquireTexture sem nextDrawable s).1 = false ∧
      (acquireTexture sem nextDrawable s).2.1 = none ∧
      (acquireTexture sem nextDrawable s).2.2.drawables = s.drawables ∧
      (acquireTexture sem nextDrawable s).2.2.currentAvailableDrawableIndex =
        s.currentAvailableDrawableIndex ∧
      (acquireTexture sem nextDrawable s).2.2.committedSignals =
        s.committedSignals ++ [sem]) := by
  cases nextDrawable with
  | none => exact ⟨rfl, fun _ => ⟨rfl, rfl, rfl, rfl, rfl⟩⟩
  | some d =>
      refine ⟨rfl, fun hx => ?_⟩
      cases hx

/-- C10 witness: the acquire theorem applied to a concrete swap chain with
no drawable available. -/
theorem claim10_witness :
    (acquireTexture 5 none (initSwapChain 8 6 .B8G8R8A8_UNORM 8 6)).2.2.actions =
      (initSwapChain 8 6 .B8G8R8A8_UNORM 8 6).actions ++
        [.commitSignal 5, .queryNextDrawable] ∧
    (acquireTexture 5 none (initSwapChain 8 6 .B8G8R8A8_UNORM 8 6)).1 = false ∧
    (acquireTexture 5 none (initSwapChain 8 6 .B8G8R8A8_UNORM 8 6)).2.2.committedSignals =
      (initSwapChain 8 6 .B8G8R8A8_UNORM 8 6).committedSignals ++ [5] :=
  ⟨(claim10_acquire_commits_before_drawable 5 none
      (initSwapChain 8 6 .B8G8R8A8_UNORM 8 6)).1,
   ((claim10_acquire_commits_before_drawable 5 none
      (initSwapChain 8 6 .B8G8R8A8_UNORM 8 6)).2 rfl).1,
   ((claim10_acquire_commits_before_drawable 5 none
      (initSwapChain 8 6 .B8G8R8A8_UNORM 8 6)).2 rfl).2.2.2.2⟩
